import Mathlib

/-!
Panel health monitor: `mdss_check_dsi_ctrl_status`.

A shallow embedding of `drivers/video/msm/mdss/dsi_status_6g.c`.

One call of `mdss_check_dsi_ctrl_status(work, interval)` (a *tick*) is a pure
function from

* the values the call reads from its surroundings (`Work`),
* the `interval` argument, and
* the persistent field `pdata->panel_info.panel_dead`

to the value of `panel_dead` when the call returns, together with the list of
externally visible calls it made, in program order (`Event`).  Diagnostic
output (`pr_err`, `pr_debug`) is not recorded in the trace.
-/

namespace DsiStatus6g

/-- Modelled from the spec: the enumeration behind `panel_info.panel_dead` is
declared in `mdss_panel.h`, which is not among the sources.  The four values are
the ones the source names; the spec calls them `NONE`, `CHECK_PENDING`,
`CONFIRMED_DEAD` and `BLANK_RECOVERY` respectively. -/
inductive PanelDead
  | PANEL_DEAD_NONE
  | PANEL_DEAD_CHECK
  | PANEL_DEAD_REPORT
  | PANEL_DEAD_BLANK
  deriving DecidableEq, Repr

/-- Modelled from the spec: the constant `MDSS_PANEL_POWER_OFF` is declared in
`mdss_panel.h`, which is not among the sources.  Power states are C integers; the
spec names `OFF` as one of the power states.  No result below depends on the
numeric value. -/
def MDSS_PANEL_POWER_OFF : Int := 0

/-- Modelled from the spec: the constant `DSI_CMD_MODE` is declared in
`mdss_panel.h`, which is not among the sources.  `mipi->mode` is a C integer;
the spec distinguishes command mode from every other mode.  No result below
depends on the numeric value. -/
def DSI_CMD_MODE : Int := 1

/-- The two mutexes of the source: `mdp5_data->ov_lock` and `ctrl_pdata->mutex`. -/
inductive Mutex
  | ov_lock
  | ctrl_mutex
  deriving DecidableEq, Repr

/-- The argument of `mdss_mdp_clk_ctrl`. -/
inductive MdpBlockPower
  | MDP_BLOCK_POWER_OFF
  | MDP_BLOCK_POWER_ON
  deriving DecidableEq, Repr

/-- The externally visible calls and writes of one tick, named after the source.
`schedule_delayed_work ms` stands for
`schedule_delayed_work(&pstatus_data->check_status, msecs_to_jiffies(ms))`,
`set_panel_dead v` for the assignment `pdata->panel_info.panel_dead = v`, and
`check_status` for the call `ctrl_pdata->check_status(ctrl_pdata)`. -/
inductive Event
  | mutex_lock (m : Mutex)
  | mutex_unlock (m : Mutex)
  | wake_lock
  | wake_unlock
  | wait_pingpong
  | mdss_mdp_clk_ctrl (block : MdpBlockPower)
  | check_status
  | set_panel_dead (v : PanelDead)
  | schedule_delayed_work (ms : Nat)
  | mdss_fb_report_panel_dead
  deriving DecidableEq, Repr

/-- The fields of `struct mdss_mdp_ctl` the function reads: `power_state`, and
whether the hook `wait_pingpong` is non-null. -/
structure mdss_mdp_ctl where
  power_state : Int
  wait_pingpong : Bool
  deriving DecidableEq, Repr

/-- Everything one call reads from its surroundings.

* `pstatus_data`, `mfd`, `pdata`, `ctrl_pdata`: whether the pointer is non-null;
* `check_status`: `none` when the callback pointer is null, `some r` when a
  callback is registered and returns `r` when called in this tick;
* `mode`: `mipi->mode`;
* `ctl`: the result of `mfd_to_ctl(pstatus_data->mfd)`, `none` for a null pointer;
* `panel_power_state`: `mfd->panel_power_state` as read under the locks (line 105);
* `shutdown_pending`: `mfd->shutdown_pending` as read under the locks (line 106);
* `panel_power_state_reread`: `mfd->panel_power_state` as read again after both
  locks are released (line 147). -/
structure Work where
  pstatus_data : Bool
  mfd : Bool
  pdata : Bool
  ctrl_pdata : Bool
  check_status : Option Int
  mode : Int
  ctl : Option mdss_mdp_ctl
  panel_power_state : Int
  shutdown_pending : Bool
  panel_power_state_reread : Int
  deriving DecidableEq, Repr

/-- Lines 101-103: the lock acquisitions, `ov_lock` only in command mode. -/
def acquire (mode : Int) : List Event :=
  (if mode = DSI_CMD_MODE then [Event.mutex_lock Mutex.ov_lock] else [])
    ++ [Event.mutex_lock Mutex.ctrl_mutex]

/-- Lines 107-109 and 143-145: the lock releases. -/
def release (mode : Int) : List Event :=
  [Event.mutex_unlock Mutex.ctrl_mutex]
    ++ (if mode = DSI_CMD_MODE then [Event.mutex_unlock Mutex.ov_lock] else [])

/-- Lines 135-138: the value written to `panel_dead` for a probe result. -/
def probe_verdict (ret : Int) : PanelDead :=
  if ret > 0 then PanelDead.PANEL_DEAD_NONE else PanelDead.PANEL_DEAD_REPORT

/-- Lines 127-129: the optional wait for the last frame's handoff. -/
def drain (ctl : mdss_mdp_ctl) (panel_dead : PanelDead) : List Event :=
  if ctl.wait_pingpong = true ∧ panel_dead ≠ PanelDead.PANEL_DEAD_CHECK
  then [Event.wait_pingpong] else []

/-- Lines 147-153: reschedule or report, decided on the re-read power state. -/
def outcome (reread : Int) (ret : Int) (interval : Nat) : List Event :=
  if reread ≠ MDSS_PANEL_POWER_OFF then
    (if ret > 0 then [Event.schedule_delayed_work interval]
     else [Event.mdss_fb_report_panel_dead])
  else []

/-- The function `mdss_check_dsi_ctrl_status(work, interval)`.
`is_power_off` is the helper `mdss_panel_is_power_off`, which is declared in
`mdss_panel.h` (not among the sources) and is therefore a parameter.  The
result is the value of `panel_dead` at return and the trace of the call. -/
def mdss_check_dsi_ctrl_status (is_power_off : Int → Bool) (work : Work)
    (interval : Nat) (panel_dead : PanelDead) : PanelDead × List Event :=
  -- lines 42-45
  if work.pstatus_data = false ∨ work.mfd = false then (panel_dead, []) else
  -- lines 47-51
  if work.pdata = false then (panel_dead, []) else
  -- lines 54-60
  match (if work.ctrl_pdata = true then work.check_status else none) with
  | none => (panel_dead, [])
  | some ret =>
    -- lines 62-73
    match panel_dead with
    | PanelDead.PANEL_DEAD_REPORT => (panel_dead, [])
    | PanelDead.PANEL_DEAD_BLANK =>
        (panel_dead, [Event.schedule_delayed_work interval])
    | _ =>
      -- lines 76-81
      match work.ctl with
      | none => (panel_dead, [])
      | some ctl =>
        -- lines 83-88
        if ctl.power_state = MDSS_PANEL_POWER_OFF then
          (panel_dead, [Event.schedule_delayed_work interval])
        -- lines 105-113
        else if is_power_off work.panel_power_state = true
            ∨ work.shutdown_pending = true then
          (panel_dead, acquire work.mode ++ release work.mode)
        else
          -- lines 115-153
          (probe_verdict ret,
            acquire work.mode
              ++ [Event.wake_lock]
              ++ drain ctl panel_dead
              ++ [Event.mdss_mdp_clk_ctrl MdpBlockPower.MDP_BLOCK_POWER_ON,
                  Event.check_status,
                  Event.set_panel_dead (probe_verdict ret),
                  Event.mdss_mdp_clk_ctrl MdpBlockPower.MDP_BLOCK_POWER_OFF,
                  Event.wake_unlock]
              ++ release work.mode
              ++ outcome work.panel_power_state_reread ret interval)

/-- A sequence of ticks on one panel: each tick starts from the `panel_dead`
left by the previous one (nobody else writes the field).  The result lists,
per tick, the `panel_dead` after it and its trace. -/
def run (is_power_off : Int → Bool) :
    PanelDead → List (Work × Nat) → List (PanelDead × List Event)
  | _, [] => []
  | s, t :: ts =>
      let r := mdss_check_dsi_ctrl_status is_power_off t.1 t.2 s
      r :: run is_power_off r.1 ts

/-- The value of `panel_dead` after a sequence of ticks. -/
def run_state (is_power_off : Int → Bool) :
    PanelDead → List (Work × Nat) → PanelDead
  | s, [] => s
  | s, t :: ts =>
      run_state is_power_off (mdss_check_dsi_ctrl_status is_power_off t.1 t.2 s).1 ts

/-- The trace of a whole sequence of ticks, in order. -/
def run_trace (is_power_off : Int → Bool) (s : PanelDead)
    (ts : List (Work × Nat)) : List Event :=
  ((run is_power_off s ts).map Prod.snd).flatten

/-- Which mutexes are held: `ov` for `ov_lock`, `ctrl` for `ctrl_pdata->mutex`. -/
structure Held where
  ov : Bool
  ctrl : Bool
  deriving DecidableEq, Repr

/-- The effect of one event on the set of held mutexes. -/
def Held.step (h : Held) : Event → Held
  | Event.mutex_lock Mutex.ov_lock => { h with ov := true }
  | Event.mutex_lock Mutex.ctrl_mutex => { h with ctrl := true }
  | Event.mutex_unlock Mutex.ov_lock => { h with ov := false }
  | Event.mutex_unlock Mutex.ctrl_mutex => { h with ctrl := false }
  | Event.wake_lock => h
  | Event.wake_unlock => h
  | Event.wait_pingpong => h
  | Event.mdss_mdp_clk_ctrl _ => h
  | Event.check_status => h
  | Event.set_panel_dead _ => h
  | Event.schedule_delayed_work _ => h
  | Event.mdss_fb_report_panel_dead => h

/-- The mutexes held after a trace, starting from `h`. -/
def held_after (h : Held) (tr : List Event) : Held :=
  tr.foldl Held.step h

/-- No mutex held. -/
def Held.none : Held := { ov := false, ctrl := false }

/-- The events of the lock discipline: `mutex_lock` and `mutex_unlock`. -/
def is_mutex_event : Event → Bool
  | Event.mutex_lock _ => true
  | Event.mutex_unlock _ => true
  | Event.wake_lock => false
  | Event.wake_unlock => false
  | Event.wait_pingpong => false
  | Event.mdss_mdp_clk_ctrl _ => false
  | Event.check_status => false
  | Event.set_panel_dead _ => false
  | Event.schedule_delayed_work _ => false
  | Event.mdss_fb_report_panel_dead => false

/-- The reschedule events, whatever the delay. -/
def is_schedule : Event → Bool
  | Event.schedule_delayed_work _ => true
  | Event.mutex_lock _ => false
  | Event.mutex_unlock _ => false
  | Event.wake_lock => false
  | Event.wake_unlock => false
  | Event.wait_pingpong => false
  | Event.mdss_mdp_clk_ctrl _ => false
  | Event.check_status => false
  | Event.set_panel_dead _ => false
  | Event.mdss_fb_report_panel_dead => false

/-- The events of the outcome step: a reschedule or a failure report. -/
def is_outcome : Event → Bool
  | Event.schedule_delayed_work _ => true
  | Event.mdss_fb_report_panel_dead => true
  | Event.mutex_lock _ => false
  | Event.mutex_unlock _ => false
  | Event.wake_lock => false
  | Event.wake_unlock => false
  | Event.wait_pingpong => false
  | Event.mdss_mdp_clk_ctrl _ => false
  | Event.check_status => false
  | Event.set_panel_dead _ => false

/-- The usual reading of `mdss_panel_is_power_off`: the state equals
`MDSS_PANEL_POWER_OFF`.  Used for concrete inputs only. -/
def is_off (s : Int) : Bool := decide (s = MDSS_PANEL_POWER_OFF)

/-- A healthy video-mode panel: everything bound, pipeline on, hook present,
probe answering `1`. -/
def work_ok : Work :=
  { pstatus_data := true, mfd := true, pdata := true, ctrl_pdata := true,
    check_status := some 1, mode := 0,
    ctl := some { power_state := 1, wait_pingpong := true },
    panel_power_state := 1, shutdown_pending := false,
    panel_power_state_reread := 1 }

/-- A panel that stops answering while it is being powered off: the probe
returns `0`, the power state is on under the locks and off when re-read. -/
def work_lost : Work :=
  { work_ok with check_status := some 0, panel_power_state_reread := 0 }

/-- A panel that stops answering while powered: the probe returns `0`. -/
def work_dead : Work := { work_ok with check_status := some 0 }

/-- The trace of a tick that probes: lines 101-153 when the teardown check passes. -/
def probe_trace (work : Work) (ctl : mdss_mdp_ctl) (panel_dead : PanelDead)
    (ret : Int) (interval : Nat) : List Event :=
  acquire work.mode
    ++ [Event.wake_lock]
    ++ drain ctl panel_dead
    ++ [Event.mdss_mdp_clk_ctrl MdpBlockPower.MDP_BLOCK_POWER_ON,
        Event.check_status,
        Event.set_panel_dead (probe_verdict ret),
        Event.mdss_mdp_clk_ctrl MdpBlockPower.MDP_BLOCK_POWER_OFF,
        Event.wake_unlock]
    ++ release work.mode
    ++ outcome work.panel_power_state_reread ret interval

/-- The binding check of lines 42-60 passes: every pointer is non-null and a
`check_status` callback is registered. -/
def bindings_present (work : Work) : Prop :=
  work.pstatus_data = true ∧ work.mfd = true ∧ work.pdata = true
    ∧ work.ctrl_pdata = true ∧ work.check_status ≠ none

instance (work : Work) : Decidable (bindings_present work) := by
  unfold bindings_present
  infer_instance

/-- A shutdown that becomes pending while the tick waits for the locks. -/
def work_race : Work := { work_ok with shutdown_pending := true }

/-- A panel whose pipeline is powered off. -/
def work_ctl_off : Work :=
  { work_ok with ctl := some { power_state := 0, wait_pingpong := true } }

/-- A command-mode panel found powered off under the locks. -/
def work_cmd_off : Work := { work_ok with mode := 1, panel_power_state := 0 }

/-- A command-mode panel whose probe returns `-5`. -/
def work_cmd_dead : Work := { work_ok with mode := 1, check_status := some (-5) }

/-- Walks a trace from the held mutexes `h` and checks that no mutex is held at
any reschedule or report event. -/
def outcome_unlocked : Held → List Event → Bool
  | _, [] => true
  | h, e :: es =>
      (if is_outcome e = true then decide (h = Held.none) else true)
        && outcome_unlocked (h.step e) es

/-- The tick gets past the teardown race check of lines 105-113: the bindings
are present, `panel_dead` is neither `PANEL_DEAD_REPORT` nor `PANEL_DEAD_BLANK`,
the pipeline is resolved and not powered off, and under the locks the panel is
not powered off and no shutdown is pending. -/
def passes_teardown_check (is_power_off : Int → Bool) (work : Work)
    (s : PanelDead) : Prop :=
  bindings_present work
    ∧ (s = PanelDead.PANEL_DEAD_NONE ∨ s = PanelDead.PANEL_DEAD_CHECK)
    ∧ ∃ ctl, work.ctl = some ctl ∧ ctl.power_state ≠ MDSS_PANEL_POWER_OFF
        ∧ is_power_off work.panel_power_state = false
        ∧ work.shutdown_pending = false

/-- The inputs of the scenarios of a powered panel: bindings present, pipeline
resolved and powered, panel not powered off and no shutdown pending under the
locks, panel still not off when the power state is read again. -/
def powered_on (is_power_off : Int → Bool) (work : Work) : Prop :=
  bindings_present work
    ∧ (∃ ctl, work.ctl = some ctl ∧ ctl.power_state ≠ MDSS_PANEL_POWER_OFF)
    ∧ is_power_off work.panel_power_state = false
    ∧ work.shutdown_pending = false
    ∧ work.panel_power_state_reread ≠ MDSS_PANEL_POWER_OFF

/-- The mutexes a probing tick holds between acquisition and release: the
controller mutex, and `ov_lock` in command mode. -/
def held_probing (mode : Int) : Held :=
  { ov := decide (mode = DSI_CMD_MODE), ctrl := true }

/-- Whether `status_wakelock` is held after a trace, starting from `b`. -/
def wake_held_after (b : Bool) (tr : List Event) : Bool :=
  tr.foldl (fun b e =>
    match e with
    | Event.wake_lock => true
    | Event.wake_unlock => false
    | Event.mutex_lock _ => b
    | Event.mutex_unlock _ => b
    | Event.wait_pingpong => b
    | Event.mdss_mdp_clk_ctrl _ => b
    | Event.check_status => b
    | Event.set_panel_dead _ => b
    | Event.schedule_delayed_work _ => b
    | Event.mdss_fb_report_panel_dead => b) b

/-- A panel whose pipeline has been torn down: `mfd_to_ctl` returns null. -/
def work_no_ctl : Work := { work_ok with ctl := none }

/-- A panel without a registered `check_status` callback. -/
def work_unbound : Work := { work_ok with check_status := none }

/-- A healthy command-mode panel whose pipeline has no `wait_pingpong` hook. -/
def work_no_hook : Work :=
  { work_ok with mode := 1, ctl := some { power_state := 1, wait_pingpong := false } }

/-- A healthy command-mode panel. -/
def work_cmd : Work := { work_ok with mode := 1 }

/-! ## Shape of one tick -/

/-- A tick has one of four shapes: silent return, reschedule only, locks taken
and released (teardown race), or a full probe. -/
theorem tick_shape (is_power_off : Int → Bool) (work : Work) (interval : Nat)
    (s : PanelDead) :
    mdss_check_dsi_ctrl_status is_power_off work interval s = (s, [])
    ∨ mdss_check_dsi_ctrl_status is_power_off work interval s
        = (s, [Event.schedule_delayed_work interval])
    ∨ mdss_check_dsi_ctrl_status is_power_off work interval s
        = (s, acquire work.mode ++ release work.mode)
    ∨ ∃ ret ctl, work.check_status = some ret ∧ work.ctl = some ctl
        ∧ s ≠ PanelDead.PANEL_DEAD_REPORT ∧ s ≠ PanelDead.PANEL_DEAD_BLANK
        ∧ mdss_check_dsi_ctrl_status is_power_off work interval s
            = (probe_verdict ret, probe_trace work ctl s ret interval) := by
  unfold mdss_check_dsi_ctrl_status
  by_cases h1 : work.pstatus_data = false ∨ work.mfd = false
  · simp [h1]
  by_cases h2 : work.pdata = false
  · simp [h2]
  by_cases h3 : work.ctrl_pdata = true
  swap
  · simp [h3]
  cases h4 : work.check_status with
  | none => simp [h4]
  | some ret =>
    cases s with
    | PANEL_DEAD_REPORT => simp [h1, h2, h3, h4]
    | PANEL_DEAD_BLANK => simp [h1, h2, h3, h4]
    | PANEL_DEAD_NONE =>
      cases h5 : work.ctl with
      | none => simp [h1, h2, h3, h4, h5]
      | some ctl =>
        by_cases h6 : ctl.power_state = MDSS_PANEL_POWER_OFF
        · simp [h1, h2, h3, h4, h5, h6]
        by_cases h7 : is_power_off work.panel_power_state = true
            ∨ work.shutdown_pending = true
        · simp [h1, h2, h3, h4, h5, h6, h7]
        · simp [h1, h2, h3, h4, h5, h6, h7, probe_trace]
    | PANEL_DEAD_CHECK =>
      cases h5 : work.ctl with
      | none => simp [h1, h2, h3, h4, h5]
      | some ctl =>
        by_cases h6 : ctl.power_state = MDSS_PANEL_POWER_OFF
        · simp [h1, h2, h3, h4, h5, h6]
        by_cases h7 : is_power_off work.panel_power_state = true
            ∨ work.shutdown_pending = true
        · simp [h1, h2, h3, h4, h5, h6, h7]
        · simp [h1, h2, h3, h4, h5, h6, h7, probe_trace]

/-- In `PANEL_DEAD_REPORT` a tick does nothing, whatever it reads. -/
theorem tick_report (is_power_off : Int → Bool) (work : Work) (interval : Nat) :
    mdss_check_dsi_ctrl_status is_power_off work interval PanelDead.PANEL_DEAD_REPORT
      = (PanelDead.PANEL_DEAD_REPORT, []) := by
  unfold mdss_check_dsi_ctrl_status
  by_cases h1 : work.pstatus_data = false ∨ work.mfd = false
  · simp [h1]
  by_cases h2 : work.pdata = false
  · simp [h2]
  cases h3 : (if work.ctrl_pdata = true then work.check_status else none) <;>
    simp [h1, h2]

/-- In `PANEL_DEAD_BLANK` with the bindings present a tick only reschedules. -/
theorem tick_blank (is_power_off : Int → Bool) (work : Work) (interval : Nat)
    (hb : bindings_present work) :
    mdss_check_dsi_ctrl_status is_power_off work interval PanelDead.PANEL_DEAD_BLANK
      = (PanelDead.PANEL_DEAD_BLANK, [Event.schedule_delayed_work interval]) := by
  obtain ⟨h1, h2, h3, h4, h5⟩ := hb
  obtain ⟨ret, hret⟩ := Option.ne_none_iff_exists'.mp h5
  simp [mdss_check_dsi_ctrl_status, h1, h2, h3, h4, hret]

/-- With the pipeline powered off a tick that gets past the `panel_dead` switch
only reschedules. -/
theorem tick_ctl_off (is_power_off : Int → Bool) (work : Work) (interval : Nat)
    (s : PanelDead) (ctl : mdss_mdp_ctl) (hb : bindings_present work)
    (hs : s ≠ PanelDead.PANEL_DEAD_REPORT) (hctl : work.ctl = some ctl)
    (hoff : ctl.power_state = MDSS_PANEL_POWER_OFF) :
    mdss_check_dsi_ctrl_status is_power_off work interval s
      = (s, [Event.schedule_delayed_work interval]) := by
  obtain ⟨h1, h2, h3, h4, h5⟩ := hb
  obtain ⟨ret, hret⟩ := Option.ne_none_iff_exists'.mp h5
  cases s <;> simp_all [mdss_check_dsi_ctrl_status]

/-- The teardown race: locks taken and released, nothing else. -/
theorem tick_race (is_power_off : Int → Bool) (work : Work) (interval : Nat)
    (s : PanelDead) (ctl : mdss_mdp_ctl) (hb : bindings_present work)
    (hs : s = PanelDead.PANEL_DEAD_NONE ∨ s = PanelDead.PANEL_DEAD_CHECK)
    (hctl : work.ctl = some ctl)
    (hon : ctl.power_state ≠ MDSS_PANEL_POWER_OFF)
    (hrace : is_power_off work.panel_power_state = true
      ∨ work.shutdown_pending = true) :
    mdss_check_dsi_ctrl_status is_power_off work interval s
      = (s, acquire work.mode ++ release work.mode) := by
  obtain ⟨h1, h2, h3, h4, h5⟩ := hb
  obtain ⟨ret, hret⟩ := Option.ne_none_iff_exists'.mp h5
  rcases hs with hs | hs <;> subst hs <;>
    simp [mdss_check_dsi_ctrl_status, h1, h2, h3, h4, hret, hctl, hon, hrace]

/-- The probing tick: every check passes. -/
theorem tick_probe (is_power_off : Int → Bool) (work : Work) (interval : Nat)
    (s : PanelDead) (ctl : mdss_mdp_ctl) (ret : Int)
    (h1 : work.pstatus_data = true) (h2 : work.mfd = true)
    (h3 : work.pdata = true) (h4 : work.ctrl_pdata = true)
    (hret : work.check_status = some ret)
    (hs : s = PanelDead.PANEL_DEAD_NONE ∨ s = PanelDead.PANEL_DEAD_CHECK)
    (hctl : work.ctl = some ctl)
    (hon : ctl.power_state ≠ MDSS_PANEL_POWER_OFF)
    (hoff : is_power_off work.panel_power_state = false)
    (hsd : work.shutdown_pending = false) :
    mdss_check_dsi_ctrl_status is_power_off work interval s
      = (probe_verdict ret, probe_trace work ctl s ret interval) := by
  rcases hs with hs | hs <;> subst hs <;>
    simp [mdss_check_dsi_ctrl_status, h1, h2, h3, h4, hret, hctl, hon, hoff, hsd,
      probe_trace]

/-! ## Sequences of ticks -/

theorem run_trace_nil (is_power_off : Int → Bool) (s : PanelDead) :
    run_trace is_power_off s [] = [] := by
  simp [run_trace, run]

theorem run_trace_cons (is_power_off : Int → Bool) (s : PanelDead)
    (t : Work × Nat) (ts : List (Work × Nat)) :
    run_trace is_power_off s (t :: ts)
      = (mdss_check_dsi_ctrl_status is_power_off t.1 t.2 s).2
        ++ run_trace is_power_off
            (mdss_check_dsi_ctrl_status is_power_off t.1 t.2 s).1 ts := by
  simp [run_trace, run]

theorem run_trace_append (is_power_off : Int → Bool) (s : PanelDead)
    (a b : List (Work × Nat)) :
    run_trace is_power_off s (a ++ b)
      = run_trace is_power_off s a
        ++ run_trace is_power_off (run_state is_power_off s a) b := by
  induction a generalizing s with
  | nil => simp [run_trace_nil, run_state]
  | cons t ts ih =>
    simp [run_trace_cons, run_state, ih, List.append_assoc]

theorem run_report (is_power_off : Int → Bool) (ts : List (Work × Nat)) :
    run is_power_off PanelDead.PANEL_DEAD_REPORT ts
      = ts.map (fun _ => (PanelDead.PANEL_DEAD_REPORT, [])) := by
  induction ts with
  | nil => rfl
  | cons t ts ih => simp [run, tick_report, ih]

theorem run_state_report (is_power_off : Int → Bool) (ts : List (Work × Nat)) :
    run_state is_power_off PanelDead.PANEL_DEAD_REPORT ts
      = PanelDead.PANEL_DEAD_REPORT := by
  induction ts with
  | nil => rfl
  | cons t ts ih => simp [run_state, tick_report, ih]

theorem run_trace_report (is_power_off : Int → Bool) (ts : List (Work × Nat)) :
    run_trace is_power_off PanelDead.PANEL_DEAD_REPORT ts = [] := by
  induction ts with
  | nil => rfl
  | cons t ts ih => simp [run_trace_cons, tick_report, ih]

/-! ## Reporting -/

/-- A tick that writes `PANEL_DEAD_REPORT` did not start in that state, ends in
it, and reports exactly when the re-read power state is not off. -/
theorem tick_set_report (is_power_off : Int → Bool) (work : Work) (interval : Nat)
    (s : PanelDead)
    (h : Event.set_panel_dead PanelDead.PANEL_DEAD_REPORT
      ∈ (mdss_check_dsi_ctrl_status is_power_off work interval s).2) :
    s ≠ PanelDead.PANEL_DEAD_REPORT
    ∧ (mdss_check_dsi_ctrl_status is_power_off work interval s).1
        = PanelDead.PANEL_DEAD_REPORT
    ∧ (mdss_check_dsi_ctrl_status is_power_off work interval s).2.count
        Event.mdss_fb_report_panel_dead
        = if work.panel_power_state_reread ≠ MDSS_PANEL_POWER_OFF then 1 else 0 := by
  rcases tick_shape is_power_off work interval s with e | e | e | ⟨ret, ctl, _, _, hs, _, e⟩
  · rw [e] at h; simp at h
  · rw [e] at h; simp at h
  · rw [e] at h; simp [acquire, release] at h
  · rw [e] at h ⊢
    have hv : probe_verdict ret = PanelDead.PANEL_DEAD_REPORT := by
      simp [probe_trace, acquire, release, drain, outcome] at h
      split_ifs at h <;> simp_all
    have hret : ¬ ret > 0 := by
      intro hpos; simp [probe_verdict, hpos] at hv
    refine ⟨hs, hv, ?_⟩
    simp [probe_trace, acquire, release, drain, outcome, hret]
    split_ifs <;> simp_all

/-- A tick that calls the failure reporter ends in `PANEL_DEAD_REPORT`. -/
theorem tick_report_mem (is_power_off : Int → Bool) (work : Work) (interval : Nat)
    (s : PanelDead)
    (h : Event.mdss_fb_report_panel_dead
      ∈ (mdss_check_dsi_ctrl_status is_power_off work interval s).2) :
    (mdss_check_dsi_ctrl_status is_power_off work interval s).1
        = PanelDead.PANEL_DEAD_REPORT := by
  rcases tick_shape is_power_off work interval s with e | e | e | ⟨ret, ctl, _, _, hs, _, e⟩
  · rw [e] at h; simp at h
  · rw [e] at h; simp at h
  · rw [e] at h; simp [acquire, release] at h
  · rw [e] at h ⊢
    by_cases hret : ret > 0
    · simp [probe_trace, acquire, release, drain, outcome, hret] at h
    · simp [probe_verdict, hret]

/-- As long as `panel_dead` has not become `PANEL_DEAD_REPORT`, the failure
reporter has not been called. -/
theorem no_report_before (is_power_off : Int → Bool) (s : PanelDead)
    (ts : List (Work × Nat))
    (h : run_state is_power_off s ts ≠ PanelDead.PANEL_DEAD_REPORT) :
    Event.mdss_fb_report_panel_dead ∉ run_trace is_power_off s ts := by
  induction ts generalizing s with
  | nil => simp [run_trace_nil]
  | cons t ts ih =>
    rw [run_trace_cons]
    simp only [run_state] at h
    intro hmem
    rcases List.mem_append.mp hmem with hm | hm
    · have := tick_report_mem is_power_off t.1 t.2 s hm
      rw [this, run_state_report] at h
      exact h rfl
    · exact ih _ h hm

/-- The reschedule and report events of a probing tick are those of its
outcome step. -/
theorem filter_outcome_probe_trace (work : Work) (ctl : mdss_mdp_ctl)
    (s : PanelDead) (ret : Int) (interval : Nat) :
    (probe_trace work ctl s ret interval).filter is_outcome
      = outcome work.panel_power_state_reread ret interval := by
  by_cases hm : work.mode = DSI_CMD_MODE <;>
  by_cases hd : (ctl.wait_pingpong = true ∧ s ≠ PanelDead.PANEL_DEAD_CHECK) <;>
  by_cases hp : work.panel_power_state_reread = MDSS_PANEL_POWER_OFF <;>
  by_cases hr : ret > 0 <;>
  simp [probe_trace, acquire, release, drain, outcome, hm, hd, hp, hr,
    is_outcome, List.filter_cons]

/-- Soundness of the walk: if it succeeds, no mutex is held before any
reschedule or report event of the trace. -/
theorem outcome_unlocked_sound (h : Held) (tr pre post : List Event) (e : Event)
    (hw : outcome_unlocked h tr = true) (hsplit : tr = pre ++ e :: post)
    (he : is_outcome e = true) : held_after h pre = Held.none := by
  induction pre generalizing h tr with
  | nil =>
    subst hsplit
    simp [outcome_unlocked, he] at hw
    simpa [held_after] using hw.1
  | cons a pre ih =>
    subst hsplit
    simp only [List.cons_append, outcome_unlocked, Bool.and_eq_true] at hw
    simpa [held_after] using ih (h.step a) _ hw.2 rfl

/-- Every tick passes the walk. -/
theorem tick_outcome_unlocked (is_power_off : Int → Bool) (work : Work)
    (interval : Nat) (s : PanelDead) :
    outcome_unlocked Held.none
      (mdss_check_dsi_ctrl_status is_power_off work interval s).2 = true := by
  rcases tick_shape is_power_off work interval s with e | e | e | ⟨r, ctl, _, _, _, _, e⟩
  · rw [e]; rfl
  · rw [e]; simp [outcome_unlocked, is_outcome]
  · rw [e]
    by_cases hm : work.mode = DSI_CMD_MODE <;>
    simp [acquire, release, hm, outcome_unlocked, is_outcome, Held.step, Held.none]
  · rw [e]
    by_cases hm : work.mode = DSI_CMD_MODE <;>
    by_cases hd : (ctl.wait_pingpong = true ∧ s ≠ PanelDead.PANEL_DEAD_CHECK) <;>
    by_cases hp : work.panel_power_state_reread = MDSS_PANEL_POWER_OFF <;>
    by_cases hr : r > 0 <;>
    simp [probe_trace, acquire, release, drain, outcome, hm, hd, hp, hr,
      outcome_unlocked, is_outcome, Held.step, Held.none]

/-! ## The claims -/

/-- C1, counterexample to the claim as stated: in the sequence healthy tick,
tick whose probe returns `0` while the panel is powered off before the outcome
step, healthy tick, the second tick writes `PANEL_DEAD_REPORT` and yet the
failure reporter is never called in the whole sequence. -/
theorem report_exactly_once_counterexample :
    Event.set_panel_dead PanelDead.PANEL_DEAD_REPORT
      ∈ run_trace is_off PanelDead.PANEL_DEAD_NONE
          [(work_ok, 2000), (work_lost, 2000), (work_ok, 2000)]
    ∧ (run_trace is_off PanelDead.PANEL_DEAD_NONE
          [(work_ok, 2000), (work_lost, 2000), (work_ok, 2000)]).count
        Event.mdss_fb_report_panel_dead = 0 := by
  decide

/-- C1, as amended: in any sequence of ticks `pre ++ t :: post` in which the
tick `t` writes `PANEL_DEAD_REPORT`, the failure reporter is called exactly once
over the whole sequence when the power state `t` re-reads after unlocking is not
`MDSS_PANEL_POWER_OFF`, and never when it is. -/
theorem report_once_unless_power_off (is_power_off : Int → Bool) (s : PanelDead)
    (pre post : List (Work × Nat)) (t : Work × Nat)
    (hset : Event.set_panel_dead PanelDead.PANEL_DEAD_REPORT
      ∈ (mdss_check_dsi_ctrl_status is_power_off t.1 t.2
          (run_state is_power_off s pre)).2) :
    (run_trace is_power_off s (pre ++ t :: post)).count
        Event.mdss_fb_report_panel_dead
      = if t.1.panel_power_state_reread ≠ MDSS_PANEL_POWER_OFF then 1 else 0 := by
  obtain ⟨hne, hst, hcnt⟩ :=
    tick_set_report is_power_off t.1 t.2 (run_state is_power_off s pre) hset
  rw [run_trace_append, run_trace_cons, hst, run_trace_report,
    List.count_append, List.count_append, hcnt,
    List.count_eq_zero_of_not_mem (no_report_before is_power_off s pre hne)]
  simp

/-- C1, witness: two healthy ticks, a failing one with the panel still powered,
one more tick; the reporter is called once. -/
theorem report_once_unless_power_off_witness :
    (run_trace is_off PanelDead.PANEL_DEAD_NONE
        ([(work_ok, 2000), (work_ok, 2000)] ++ (work_dead, 2000) :: [(work_ok, 2000)])).count
        Event.mdss_fb_report_panel_dead
      = if (work_dead, 2000).1.panel_power_state_reread ≠ MDSS_PANEL_POWER_OFF
        then 1 else 0 :=
  report_once_unless_power_off is_off PanelDead.PANEL_DEAD_NONE
    [(work_ok, 2000), (work_ok, 2000)] [(work_ok, 2000)] (work_dead, 2000) (by decide)

/-- C2: in `PANEL_DEAD_REPORT` a tick emits no event and leaves `panel_dead` as
it is, whatever the other inputs are; hence every tick of every sequence started
there is empty and the state after the sequence is still `PANEL_DEAD_REPORT`. -/
theorem confirmed_dead_absorbing (is_power_off : Int → Bool) (work : Work)
    (interval : Nat) (ts : List (Work × Nat)) :
    mdss_check_dsi_ctrl_status is_power_off work interval PanelDead.PANEL_DEAD_REPORT
      = (PanelDead.PANEL_DEAD_REPORT, [])
    ∧ run is_power_off PanelDead.PANEL_DEAD_REPORT ts
      = ts.map (fun _ => (PanelDead.PANEL_DEAD_REPORT, []))
    ∧ run_state is_power_off PanelDead.PANEL_DEAD_REPORT ts
      = PanelDead.PANEL_DEAD_REPORT :=
  ⟨tick_report is_power_off work interval, run_report is_power_off ts,
    run_state_report is_power_off ts⟩

/-- C3: a tick that calls `check_status` and gets `ret` leaves `panel_dead` at
`PANEL_DEAD_NONE` when `ret > 0` and at `PANEL_DEAD_REPORT` when `ret ≤ 0`,
whatever `panel_dead` was before. -/
theorem probe_sets_dead_state (is_power_off : Int → Bool) (work : Work)
    (interval : Nat) (s : PanelDead) (ret : Int)
    (hcall : Event.check_status
      ∈ (mdss_check_dsi_ctrl_status is_power_off work interval s).2)
    (hret : work.check_status = some ret) :
    (ret > 0 → (mdss_check_dsi_ctrl_status is_power_off work interval s).1
        = PanelDead.PANEL_DEAD_NONE)
    ∧ (ret ≤ 0 → (mdss_check_dsi_ctrl_status is_power_off work interval s).1
        = PanelDead.PANEL_DEAD_REPORT) := by
  rcases tick_shape is_power_off work interval s with e | e | e | ⟨r, ctl, hr, _, _, _, e⟩
  · rw [e] at hcall; simp at hcall
  · rw [e] at hcall; simp at hcall
  · rw [e] at hcall; simp [acquire, release] at hcall
  · rw [hret] at hr
    cases hr
    rw [e]
    constructor
    · intro h; simp [probe_verdict, h]
    · intro h; simp [probe_verdict, not_lt.mpr h]

/-- C3, witness: from `PANEL_DEAD_CHECK` a probe returning `0` gives
`PANEL_DEAD_REPORT`. -/
theorem probe_sets_dead_state_witness :
    (mdss_check_dsi_ctrl_status is_off work_dead 2000 PanelDead.PANEL_DEAD_CHECK).1
      = PanelDead.PANEL_DEAD_REPORT :=
  (probe_sets_dead_state is_off work_dead 2000 PanelDead.PANEL_DEAD_CHECK 0
    (by decide) rfl).2 (by decide)

/-- C4: in a tick that called `check_status` and got `ret`, with `p` the panel
power state re-read after the locks are released, the reschedule and report
events of the trace are: exactly one reschedule with delay `interval` when `p`
is not off and `ret > 0`; exactly one failure report when `p` is not off and
`ret ≤ 0`; none at all when `p` is off. -/
theorem outcome_step (is_power_off : Int → Bool) (work : Work)
    (interval : Nat) (s : PanelDead) (ret : Int)
    (hcall : Event.check_status
      ∈ (mdss_check_dsi_ctrl_status is_power_off work interval s).2)
    (hret : work.check_status = some ret) :
    (work.panel_power_state_reread ≠ MDSS_PANEL_POWER_OFF → ret > 0 →
      (mdss_check_dsi_ctrl_status is_power_off work interval s).2.filter is_outcome
        = [Event.schedule_delayed_work interval])
    ∧ (work.panel_power_state_reread ≠ MDSS_PANEL_POWER_OFF → ret ≤ 0 →
      (mdss_check_dsi_ctrl_status is_power_off work interval s).2.filter is_outcome
        = [Event.mdss_fb_report_panel_dead])
    ∧ (work.panel_power_state_reread = MDSS_PANEL_POWER_OFF →
      (mdss_check_dsi_ctrl_status is_power_off work interval s).2.filter is_outcome
        = []) := by
  rcases tick_shape is_power_off work interval s with e | e | e | ⟨r, ctl, hr, _, _, _, e⟩
  · rw [e] at hcall; simp at hcall
  · rw [e] at hcall; simp at hcall
  · rw [e] at hcall; simp [acquire, release] at hcall
  · rw [hret] at hr
    cases hr
    rw [e]
    have hf : (probe_trace work ctl s ret interval).filter is_outcome
        = outcome work.panel_power_state_reread ret interval :=
      filter_outcome_probe_trace work ctl s ret interval
    rw [hf]
    refine ⟨?_, ?_, ?_⟩
    · intro hp h
      simp [outcome, hp, h]
    · intro hp h
      simp [outcome, hp, not_lt.mpr h]
    · intro hp
      simp [outcome, hp]

/-- C4, witness: a failed probe on a powered panel ends in exactly one report. -/
theorem outcome_step_witness :
    (mdss_check_dsi_ctrl_status is_off work_dead 2000
        PanelDead.PANEL_DEAD_NONE).2.filter is_outcome
      = [Event.mdss_fb_report_panel_dead] :=
  (outcome_step is_off work_dead 2000 PanelDead.PANEL_DEAD_NONE 0
    (by decide) rfl).2.1 (by decide) (by decide)

/-- C5: the mutex events of a tick are, in order, either none, or
`lock ov_lock, lock ctrl mutex, unlock ctrl mutex, unlock ov_lock` with the
panel in command mode, or `lock ctrl mutex, unlock ctrl mutex` with the panel
not in command mode; and no mutex is held when the tick returns. -/
theorem lock_discipline (is_power_off : Int → Bool) (work : Work)
    (interval : Nat) (s : PanelDead) :
    ((mdss_check_dsi_ctrl_status is_power_off work interval s).2.filter
          is_mutex_event = []
      ∨ (work.mode = DSI_CMD_MODE
          ∧ (mdss_check_dsi_ctrl_status is_power_off work interval s).2.filter
              is_mutex_event
            = [Event.mutex_lock Mutex.ov_lock, Event.mutex_lock Mutex.ctrl_mutex,
               Event.mutex_unlock Mutex.ctrl_mutex, Event.mutex_unlock Mutex.ov_lock])
      ∨ (work.mode ≠ DSI_CMD_MODE
          ∧ (mdss_check_dsi_ctrl_status is_power_off work interval s).2.filter
              is_mutex_event
            = [Event.mutex_lock Mutex.ctrl_mutex,
               Event.mutex_unlock Mutex.ctrl_mutex]))
    ∧ held_after Held.none
        (mdss_check_dsi_ctrl_status is_power_off work interval s).2 = Held.none := by
  rcases tick_shape is_power_off work interval s with e | e | e | ⟨r, ctl, _, _, _, _, e⟩
  · rw [e]; simp [held_after]
  · rw [e]; simp [held_after, is_mutex_event, Held.step]
  · rw [e]
    by_cases hm : work.mode = DSI_CMD_MODE
    · simp [acquire, release, hm, is_mutex_event, held_after, Held.step, Held.none]
    · simp [acquire, release, hm, is_mutex_event, held_after, Held.step, Held.none]
  · rw [e]
    by_cases hm : work.mode = DSI_CMD_MODE <;>
    by_cases hd : (ctl.wait_pingpong = true ∧ s ≠ PanelDead.PANEL_DEAD_CHECK) <;>
    by_cases hp : work.panel_power_state_reread = MDSS_PANEL_POWER_OFF <;>
    by_cases hr : r > 0 <;>
    simp [probe_trace, acquire, release, drain, outcome, hm, hd, hp, hr,
      is_mutex_event, held_after, Held.step, Held.none, List.filter_cons]

/-- C6: in a sequence of ticks started with `panel_dead` other than
`PANEL_DEAD_REPORT`, in which every tick has its bindings present and a resolved
pipeline whose `power_state` is `MDSS_PANEL_POWER_OFF`, every tick leaves
`panel_dead` as it was at the start and its whole trace is one reschedule with
that tick's `interval`; in particular no tick calls `check_status` or takes a
mutex. -/
theorem power_off_polling (is_power_off : Int → Bool) (s : PanelDead)
    (ts : List (Work × Nat)) (hs : s ≠ PanelDead.PANEL_DEAD_REPORT)
    (hts : ∀ t ∈ ts, bindings_present t.1
      ∧ ∃ ctl, t.1.ctl = some ctl ∧ ctl.power_state = MDSS_PANEL_POWER_OFF) :
    run is_power_off s ts
      = ts.map (fun t => (s, [Event.schedule_delayed_work t.2]))
    ∧ ∀ r ∈ run is_power_off s ts,
        r.1 = s ∧ Event.check_status ∉ r.2 ∧ ∀ m, Event.mutex_lock m ∉ r.2 := by
  have key : run is_power_off s ts
      = ts.map (fun t => (s, [Event.schedule_delayed_work t.2])) := by
    induction ts with
    | nil => rfl
    | cons t ts ih =>
      obtain ⟨hb, ctl, hctl, hoff⟩ := hts t (List.mem_cons_self t ts)
      have ht := tick_ctl_off is_power_off t.1 t.2 s ctl hb hs hctl hoff
      simp only [run, ht, List.map_cons]
      rw [ih (fun u hu => hts u (List.mem_cons_of_mem t hu))]
  refine ⟨key, ?_⟩
  intro r hr
  rw [key] at hr
  obtain ⟨t, _, rfl⟩ := List.mem_map.mp hr
  simp

/-- C6, witness: three ticks with the pipeline powered off, from
`PANEL_DEAD_NONE`. -/
theorem power_off_polling_witness :
    run is_off PanelDead.PANEL_DEAD_NONE
        [(work_ctl_off, 2000), (work_ctl_off, 2000), (work_ctl_off, 2000)]
      = [(work_ctl_off, 2000), (work_ctl_off, 2000), (work_ctl_off, 2000)].map
          (fun t => (PanelDead.PANEL_DEAD_NONE, [Event.schedule_delayed_work t.2])) :=
  (power_off_polling is_off PanelDead.PANEL_DEAD_NONE
    [(work_ctl_off, 2000), (work_ctl_off, 2000), (work_ctl_off, 2000)]
    (by decide) (by decide)).1

/-- C7: in `PANEL_DEAD_BLANK` with the bindings present, whatever the pipeline,
the power states, the mode and the shutdown flag are, the whole trace of a tick
is one reschedule with delay `interval` and `panel_dead` stays
`PANEL_DEAD_BLANK`; hence in a sequence of such ticks every tick does exactly
that. -/
theorem blank_recovery_polling (is_power_off : Int → Bool) (work : Work)
    (interval : Nat) (ts : List (Work × Nat)) (hb : bindings_present work)
    (hts : ∀ t ∈ ts, bindings_present t.1) :
    mdss_check_dsi_ctrl_status is_power_off work interval PanelDead.PANEL_DEAD_BLANK
      = (PanelDead.PANEL_DEAD_BLANK, [Event.schedule_delayed_work interval])
    ∧ run is_power_off PanelDead.PANEL_DEAD_BLANK ts
      = ts.map (fun t =>
          (PanelDead.PANEL_DEAD_BLANK, [Event.schedule_delayed_work t.2])) := by
  refine ⟨tick_blank is_power_off work interval hb, ?_⟩
  induction ts with
  | nil => rfl
  | cons t ts ih =>
    have ht := tick_blank is_power_off t.1 t.2 (hts t (List.mem_cons_self t ts))
    simp only [run, ht, List.map_cons]
    rw [ih (fun u hu => hts u (List.mem_cons_of_mem t hu))]

/-- C7, witness: ticks in `PANEL_DEAD_BLANK` on an otherwise healthy panel, on a
panel with the pipeline off and on a panel being shut down. -/
theorem blank_recovery_polling_witness :
    mdss_check_dsi_ctrl_status is_off work_race 2000 PanelDead.PANEL_DEAD_BLANK
      = (PanelDead.PANEL_DEAD_BLANK, [Event.schedule_delayed_work 2000])
    ∧ run is_off PanelDead.PANEL_DEAD_BLANK
        [(work_ok, 2000), (work_ctl_off, 500), (work_race, 2000)]
      = [(work_ok, 2000), (work_ctl_off, 500), (work_race, 2000)].map (fun t =>
          (PanelDead.PANEL_DEAD_BLANK, [Event.schedule_delayed_work t.2])) :=
  blank_recovery_polling is_off work_race 2000
    [(work_ok, 2000), (work_ctl_off, 500), (work_race, 2000)] (by decide) (by decide)

/-- C8: when the bindings are present, `panel_dead` is `PANEL_DEAD_NONE` or
`PANEL_DEAD_CHECK`, the pipeline is resolved with `power_state` not off, and
under the locks the panel power state is off or `shutdown_pending` is set, the
whole trace of the tick is the lock acquisitions followed by the releases in
reverse order and `panel_dead` is unchanged. -/
theorem teardown_race (is_power_off : Int → Bool) (work : Work) (interval : Nat)
    (s : PanelDead) (ctl : mdss_mdp_ctl) (hb : bindings_present work)
    (hs : s = PanelDead.PANEL_DEAD_NONE ∨ s = PanelDead.PANEL_DEAD_CHECK)
    (hctl : work.ctl = some ctl)
    (hon : ctl.power_state ≠ MDSS_PANEL_POWER_OFF)
    (hrace : is_power_off work.panel_power_state = true
      ∨ work.shutdown_pending = true) :
    mdss_check_dsi_ctrl_status is_power_off work interval s
      = (s, if work.mode = DSI_CMD_MODE then
              [Event.mutex_lock Mutex.ov_lock, Event.mutex_lock Mutex.ctrl_mutex,
               Event.mutex_unlock Mutex.ctrl_mutex, Event.mutex_unlock Mutex.ov_lock]
            else
              [Event.mutex_lock Mutex.ctrl_mutex,
               Event.mutex_unlock Mutex.ctrl_mutex]) := by
  rw [tick_race is_power_off work interval s ctl hb hs hctl hon hrace]
  by_cases hm : work.mode = DSI_CMD_MODE <;> simp [acquire, release, hm]

/-- C8, witness: a command-mode panel that is powered off under the locks. -/
theorem teardown_race_witness :
    mdss_check_dsi_ctrl_status is_off work_cmd_off 2000 PanelDead.PANEL_DEAD_CHECK
      = (PanelDead.PANEL_DEAD_CHECK,
          if work_cmd_off.mode = DSI_CMD_MODE then
            [Event.mutex_lock Mutex.ov_lock, Event.mutex_lock Mutex.ctrl_mutex,
             Event.mutex_unlock Mutex.ctrl_mutex, Event.mutex_unlock Mutex.ov_lock]
          else
            [Event.mutex_lock Mutex.ctrl_mutex,
             Event.mutex_unlock Mutex.ctrl_mutex]) :=
  teardown_race is_off work_cmd_off 2000 PanelDead.PANEL_DEAD_CHECK
    { power_state := 1, wait_pingpong := true } (by decide) (by decide) rfl
    (by decide) (by decide)

/-- C9, counterexample to the claim as stated: with `shutdown_pending` set when
the tick holds the controller mutex, the tick releases the mutex and returns;
its trace holds no reschedule. -/
theorem transient_reschedule_counterexample :
    bindings_present work_race
    ∧ work_race.shutdown_pending = true
    ∧ mdss_check_dsi_ctrl_status is_off work_race 2000 PanelDead.PANEL_DEAD_NONE
      = (PanelDead.PANEL_DEAD_NONE,
          [Event.mutex_lock Mutex.ctrl_mutex, Event.mutex_unlock Mutex.ctrl_mutex])
    ∧ (mdss_check_dsi_ctrl_status is_off work_race 2000
        PanelDead.PANEL_DEAD_NONE).2.filter is_schedule = [] := by
  decide

/-- C9, as amended: with the bindings present, a tick in `PANEL_DEAD_BLANK`
reschedules at `interval`, and so does a tick that reaches the power check with
the pipeline `power_state` off; a tick that detects the shutdown race under the
locks releases its locks and does not reschedule: its whole trace is the lock
acquisitions followed by the releases in reverse order, `panel_dead` is
unchanged, and the trace holds no reschedule. -/
theorem transient_reschedule (is_power_off : Int → Bool) (work : Work)
    (interval : Nat) (s : PanelDead) (hb : bindings_present work) :
    (s = PanelDead.PANEL_DEAD_BLANK →
      mdss_check_dsi_ctrl_status is_power_off work interval s
        = (s, [Event.schedule_delayed_work interval]))
    ∧ (∀ ctl, (s = PanelDead.PANEL_DEAD_NONE ∨ s = PanelDead.PANEL_DEAD_CHECK) →
        work.ctl = some ctl → ctl.power_state = MDSS_PANEL_POWER_OFF →
        mdss_check_dsi_ctrl_status is_power_off work interval s
          = (s, [Event.schedule_delayed_work interval]))
    ∧ (∀ ctl, (s = PanelDead.PANEL_DEAD_NONE ∨ s = PanelDead.PANEL_DEAD_CHECK) →
        work.ctl = some ctl → ctl.power_state ≠ MDSS_PANEL_POWER_OFF →
        (is_power_off work.panel_power_state = true
          ∨ work.shutdown_pending = true) →
        mdss_check_dsi_ctrl_status is_power_off work interval s
          = (s, if work.mode = DSI_CMD_MODE then
                  [Event.mutex_lock Mutex.ov_lock, Event.mutex_lock Mutex.ctrl_mutex,
                   Event.mutex_unlock Mutex.ctrl_mutex,
                   Event.mutex_unlock Mutex.ov_lock]
                else
                  [Event.mutex_lock Mutex.ctrl_mutex,
                   Event.mutex_unlock Mutex.ctrl_mutex])
        ∧ (mdss_check_dsi_ctrl_status is_power_off work interval s).2.filter
            is_schedule = []
        ∧ held_after Held.none
            (mdss_check_dsi_ctrl_status is_power_off work interval s).2
            = Held.none) := by
  refine ⟨?_, ?_, ?_⟩
  · intro h
    subst h
    exact tick_blank is_power_off work interval hb
  · intro ctl hs hctl hoff
    refine tick_ctl_off is_power_off work interval s ctl hb ?_ hctl hoff
    rcases hs with h | h <;> simp [h]
  · intro ctl hs hctl hon hrace
    rw [tick_race is_power_off work interval s ctl hb hs hctl hon hrace]
    by_cases hm : work.mode = DSI_CMD_MODE <;>
      simp [acquire, release, hm, is_schedule, List.filter_cons, held_after,
        Held.step, Held.none]

/-- C9, witness: one tick for each of the three cases; the third is a shutdown
race on a video-mode panel. -/
theorem transient_reschedule_witness :
    mdss_check_dsi_ctrl_status is_off work_ok 2000 PanelDead.PANEL_DEAD_BLANK
      = (PanelDead.PANEL_DEAD_BLANK, [Event.schedule_delayed_work 2000])
    ∧ mdss_check_dsi_ctrl_status is_off work_ctl_off 2000 PanelDead.PANEL_DEAD_NONE
      = (PanelDead.PANEL_DEAD_NONE, [Event.schedule_delayed_work 2000])
    ∧ (mdss_check_dsi_ctrl_status is_off work_race 2000 PanelDead.PANEL_DEAD_CHECK
        = (PanelDead.PANEL_DEAD_CHECK,
            if work_race.mode = DSI_CMD_MODE then
              [Event.mutex_lock Mutex.ov_lock, Event.mutex_lock Mutex.ctrl_mutex,
               Event.mutex_unlock Mutex.ctrl_mutex,
               Event.mutex_unlock Mutex.ov_lock]
            else
              [Event.mutex_lock Mutex.ctrl_mutex,
               Event.mutex_unlock Mutex.ctrl_mutex])
      ∧ (mdss_check_dsi_ctrl_status is_off work_race 2000
          PanelDead.PANEL_DEAD_CHECK).2.filter is_schedule = []
      ∧ held_after Held.none
          (mdss_check_dsi_ctrl_status is_off work_race 2000
            PanelDead.PANEL_DEAD_CHECK).2 = Held.none) :=
  ⟨(transient_reschedule is_off work_ok 2000 PanelDead.PANEL_DEAD_BLANK
      (by decide)).1 rfl,
   (transient_reschedule is_off work_ctl_off 2000 PanelDead.PANEL_DEAD_NONE
      (by decide)).2.1 { power_state := 0, wait_pingpong := true }
      (Or.inl rfl) rfl rfl,
   (transient_reschedule is_off work_race 2000 PanelDead.PANEL_DEAD_CHECK
      (by decide)).2.2 { power_state := 1, wait_pingpong := true }
      (Or.inr rfl) rfl (by decide) (by decide)⟩

/-- C10: at every reschedule event and every failure report of a tick's trace,
neither `ov_lock` nor the controller mutex is held: for every way of splitting
the trace as `pre ++ e :: post` with `e` a reschedule or a report, no mutex is
held after `pre`. -/
theorem no_lock_across_outcome (is_power_off : Int → Bool) (work : Work)
    (interval : Nat) (s : PanelDead) (pre post : List Event) (e : Event)
    (hsplit : (mdss_check_dsi_ctrl_status is_power_off work interval s).2
      = pre ++ e :: post)
    (he : is_outcome e = true) :
    held_after Held.none pre = Held.none :=
  outcome_unlocked_sound Held.none _ pre post e
    (tick_outcome_unlocked is_power_off work interval s) hsplit he

/-- C10, witness: the report of a failed probe in command mode comes after both
mutexes are released. -/
theorem no_lock_across_outcome_witness :
    held_after Held.none
      [Event.mutex_lock Mutex.ov_lock, Event.mutex_lock Mutex.ctrl_mutex,
       Event.wake_lock, Event.wait_pingpong,
       Event.mdss_mdp_clk_ctrl MdpBlockPower.MDP_BLOCK_POWER_ON,
       Event.check_status,
       Event.set_panel_dead PanelDead.PANEL_DEAD_REPORT,
       Event.mdss_mdp_clk_ctrl MdpBlockPower.MDP_BLOCK_POWER_OFF,
       Event.wake_unlock,
       Event.mutex_unlock Mutex.ctrl_mutex, Event.mutex_unlock Mutex.ov_lock]
      = Held.none :=
  no_lock_across_outcome is_off work_cmd_dead 2000 PanelDead.PANEL_DEAD_NONE _ []
    Event.mdss_fb_report_panel_dead (by decide) rfl

/-! ## Probing ticks -/

/-- A tick that gets past the teardown race check probes. -/
theorem tick_of_passes (is_power_off : Int → Bool) (work : Work) (interval : Nat)
    (s : PanelDead) (h : passes_teardown_check is_power_off work s) :
    ∃ ret ctl, work.check_status = some ret ∧ work.ctl = some ctl
      ∧ mdss_check_dsi_ctrl_status is_power_off work interval s
          = (probe_verdict ret, probe_trace work ctl s ret interval) := by
  obtain ⟨⟨h1, h2, h3, h4, h5⟩, hs, ctl, hctl, hon, hoff, hsd⟩ := h
  obtain ⟨ret, hret⟩ := Option.ne_none_iff_exists'.mp h5
  exact ⟨ret, ctl, hret, hctl,
    tick_probe is_power_off work interval s ctl ret h1 h2 h3 h4 hret hs hctl hon
      hoff hsd⟩

/-- A tick that does not get past the teardown race check has one of the three
shapes without a probe. -/
theorem tick_of_not_passes (is_power_off : Int → Bool) (work : Work)
    (interval : Nat) (s : PanelDead)
    (h : ¬ passes_teardown_check is_power_off work s) :
    mdss_check_dsi_ctrl_status is_power_off work interval s = (s, [])
    ∨ mdss_check_dsi_ctrl_status is_power_off work interval s
        = (s, [Event.schedule_delayed_work interval])
    ∨ mdss_check_dsi_ctrl_status is_power_off work interval s
        = (s, acquire work.mode ++ release work.mode) := by
  unfold mdss_check_dsi_ctrl_status
  by_cases h1 : work.pstatus_data = false ∨ work.mfd = false
  · simp [h1]
  by_cases h2 : work.pdata = false
  · simp [h2]
  by_cases h3 : work.ctrl_pdata = true
  swap
  · simp [h3]
  cases h4 : work.check_status with
  | none => simp [h4]
  | some ret =>
    have hb : bindings_present work := by
      simp only [not_or, Bool.not_eq_false] at h1 h2
      exact ⟨h1.1, h1.2, h2, h3, by simp [h4]⟩
    cases s with
    | PANEL_DEAD_REPORT => simp [h1, h2, h3, h4]
    | PANEL_DEAD_BLANK => simp [h1, h2, h3, h4]
    | PANEL_DEAD_NONE =>
      cases h5 : work.ctl with
      | none => simp [h1, h2, h3, h4, h5]
      | some ctl =>
        by_cases h6 : ctl.power_state = MDSS_PANEL_POWER_OFF
        · simp [h1, h2, h3, h4, h5, h6]
        by_cases h7 : is_power_off work.panel_power_state = true
            ∨ work.shutdown_pending = true
        · simp [h1, h2, h3, h4, h5, h6, h7]
        · exfalso
          simp only [not_or, Bool.not_eq_true] at h7
          exact h ⟨hb, Or.inl rfl, ctl, h5, h6, h7.1, h7.2⟩
    | PANEL_DEAD_CHECK =>
      cases h5 : work.ctl with
      | none => simp [h1, h2, h3, h4, h5]
      | some ctl =>
        by_cases h6 : ctl.power_state = MDSS_PANEL_POWER_OFF
        · simp [h1, h2, h3, h4, h5, h6]
        by_cases h7 : is_power_off work.panel_power_state = true
            ∨ work.shutdown_pending = true
        · simp [h1, h2, h3, h4, h5, h6, h7]
        · exfalso
          simp only [not_or, Bool.not_eq_true] at h7
          exact h ⟨hb, Or.inr rfl, ctl, h5, h6, h7.1, h7.2⟩

/-- The mutexes held after the acquisitions of a probing tick. -/
theorem held_after_acquire (mode : Int) :
    held_after Held.none (acquire mode) = held_probing mode := by
  by_cases hm : mode = DSI_CMD_MODE <;>
    simp [acquire, hm, held_after, Held.step, Held.none, held_probing]

/-- Appending events splits the fold over held mutexes. -/
theorem held_after_append (h : Held) (a b : List Event) :
    held_after h (a ++ b) = held_after (held_after h a) b := by
  simp [held_after, List.foldl_append]

/-- The reschedule and report events of any tick: none, one reschedule with
the tick's `interval`, or one report. -/
theorem tick_outcome_events (is_power_off : Int → Bool) (work : Work)
    (interval : Nat) (s : PanelDead) :
    (mdss_check_dsi_ctrl_status is_power_off work interval s).2.filter is_outcome = []
    ∨ (mdss_check_dsi_ctrl_status is_power_off work interval s).2.filter is_outcome
        = [Event.schedule_delayed_work interval]
    ∨ (mdss_check_dsi_ctrl_status is_power_off work interval s).2.filter is_outcome
        = [Event.mdss_fb_report_panel_dead] := by
  rcases tick_shape is_power_off work interval s with e | e | e | ⟨r, ctl, _, _, _, _, e⟩
  · rw [e]; simp
  · rw [e]; simp [is_outcome]
  · rw [e]
    by_cases hm : work.mode = DSI_CMD_MODE <;>
      simp [acquire, release, hm, is_outcome, List.filter_cons]
  · rw [e]
    simp only [filter_outcome_probe_trace]
    by_cases hp : work.panel_power_state_reread = MDSS_PANEL_POWER_OFF <;>
    by_cases hr : r > 0 <;>
    simp [outcome, hp, hr]

/-- A reschedule is an outcome event. -/
theorem is_outcome_of_is_schedule (e : Event) (h : is_schedule e = true) :
    is_outcome e = true := by
  cases e <;> simp_all [is_schedule, is_outcome]

/-- The reschedules of a trace are the reschedules among its outcome events. -/
theorem filter_schedule_eq (tr : List Event) :
    tr.filter is_schedule = (tr.filter is_outcome).filter is_schedule := by
  rw [List.filter_filter]
  apply List.filter_congr
  intro e _
  cases e <;> simp [is_schedule, is_outcome]

/-- The run of a concatenation. -/
theorem run_append (is_power_off : Int → Bool) (s : PanelDead)
    (a b : List (Work × Nat)) :
    run is_power_off s (a ++ b)
      = run is_power_off s a
        ++ run is_power_off (run_state is_power_off s a) b := by
  induction a generalizing s with
  | nil => simp [run, run_state]
  | cons t ts ih => simp [run, run_state, ih]

/-- One record per tick. -/
theorem run_length (is_power_off : Int → Bool) (s : PanelDead)
    (ts : List (Work × Nat)) : (run is_power_off s ts).length = ts.length := by
  induction ts generalizing s with
  | nil => rfl
  | cons t ts ih => simp [run, ih]

/-- A tick on a powered panel, from `PANEL_DEAD_NONE` or `PANEL_DEAD_CHECK`,
probes. -/
theorem tick_powered (is_power_off : Int → Bool) (work : Work) (interval : Nat)
    (s : PanelDead) (r : Int) (hp : powered_on is_power_off work)
    (hr : work.check_status = some r)
    (hs : s = PanelDead.PANEL_DEAD_NONE ∨ s = PanelDead.PANEL_DEAD_CHECK) :
    ∃ ctl, work.ctl = some ctl
      ∧ mdss_check_dsi_ctrl_status is_power_off work interval s
          = (probe_verdict r, probe_trace work ctl s r interval) := by
  obtain ⟨⟨h1, h2, h3, h4, _⟩, ⟨ctl, hctl, hon⟩, hoff, hsd, _⟩ := hp
  exact ⟨ctl, hctl,
    tick_probe is_power_off work interval s ctl r h1 h2 h3 h4 hr hs hctl hon hoff hsd⟩

/-- A probing tick calls `check_status` once. -/
theorem count_check_status_probe_trace (work : Work) (ctl : mdss_mdp_ctl)
    (s : PanelDead) (r : Int) (interval : Nat) :
    (probe_trace work ctl s r interval).count Event.check_status = 1 := by
  by_cases hm : work.mode = DSI_CMD_MODE <;>
  by_cases hd : (ctl.wait_pingpong = true ∧ s ≠ PanelDead.PANEL_DEAD_CHECK) <;>
  by_cases hp : work.panel_power_state_reread = MDSS_PANEL_POWER_OFF <;>
  by_cases hr : r > 0 <;>
  simp [probe_trace, acquire, release, drain, outcome, hm, hd, hp, hr,
    List.count_cons]

/-- A healthy tick: powered panel, positive probe, from `PANEL_DEAD_NONE`. -/
theorem tick_healthy (is_power_off : Int → Bool) (work : Work) (interval : Nat)
    (r : Int) (hp : powered_on is_power_off work)
    (hr : work.check_status = some r) (hpos : r > 0) :
    (mdss_check_dsi_ctrl_status is_power_off work interval
        PanelDead.PANEL_DEAD_NONE).1 = PanelDead.PANEL_DEAD_NONE
    ∧ (mdss_check_dsi_ctrl_status is_power_off work interval
        PanelDead.PANEL_DEAD_NONE).2.count Event.check_status = 1
    ∧ (mdss_check_dsi_ctrl_status is_power_off work interval
        PanelDead.PANEL_DEAD_NONE).2.filter is_outcome
        = [Event.schedule_delayed_work interval] := by
  obtain ⟨ctl, _, e⟩ :=
    tick_powered is_power_off work interval PanelDead.PANEL_DEAD_NONE r hp hr
      (Or.inl rfl)
  rw [e]
  refine ⟨by simp [probe_verdict, hpos], count_check_status_probe_trace _ _ _ _ _, ?_⟩
  simp [filter_outcome_probe_trace, outcome, hp.2.2.2.2, hpos]

/-- A run of healthy ticks from `PANEL_DEAD_NONE`: every tick probes once,
reschedules once and leaves `PANEL_DEAD_NONE`. -/
theorem run_healthy (is_power_off : Int → Bool) (interval : Nat) (ws : List Work)
    (h : ∀ w ∈ ws, powered_on is_power_off w
      ∧ ∃ r, w.check_status = some r ∧ r > 0) :
    (∀ r ∈ run is_power_off PanelDead.PANEL_DEAD_NONE
          (ws.map (fun w => (w, interval))),
        r.1 = PanelDead.PANEL_DEAD_NONE
        ∧ r.2.count Event.check_status = 1
        ∧ r.2.filter is_outcome = [Event.schedule_delayed_work interval])
    ∧ run_state is_power_off PanelDead.PANEL_DEAD_NONE
        (ws.map (fun w => (w, interval))) = PanelDead.PANEL_DEAD_NONE := by
  induction ws with
  | nil => simp [run, run_state]
  | cons w ws ih =>
    obtain ⟨hp, r, hr, hpos⟩ := h w (List.mem_cons_self w ws)
    have ht := tick_healthy is_power_off w interval r hp hr hpos
    have ih2 := ih (fun u hu => h u (List.mem_cons_of_mem w hu))
    constructor
    · intro x hx
      simp only [List.map_cons, run, List.mem_cons] at hx
      rcases hx with hx | hx
      · rw [hx]; exact ht
      · rw [ht.1] at hx; exact ih2.1 x hx
    · simp only [List.map_cons, run_state]
      rw [ht.1]; exact ih2.2

/-- A tick whose trace holds a `check_status` call got past the teardown race
check. -/
theorem passes_of_check_status (is_power_off : Int → Bool) (work : Work)
    (interval : Nat) (s : PanelDead)
    (h : Event.check_status
      ∈ (mdss_check_dsi_ctrl_status is_power_off work interval s).2) :
    passes_teardown_check is_power_off work s := by
  by_contra hn
  rcases tick_of_not_passes is_power_off work interval s hn with e | e | e
  · rw [e] at h; simp at h
  · rw [e] at h; simp at h
  · rw [e] at h; simp [acquire, release] at h

/-- A tick whose trace holds a `wake_lock` call got past the teardown race
check. -/
theorem passes_of_wake_lock (is_power_off : Int → Bool) (work : Work)
    (interval : Nat) (s : PanelDead)
    (h : Event.wake_lock
      ∈ (mdss_check_dsi_ctrl_status is_power_off work interval s).2) :
    passes_teardown_check is_power_off work s := by
  by_contra hn
  rcases tick_of_not_passes is_power_off work interval s hn with e | e | e
  · rw [e] at h; simp at h
  · rw [e] at h; simp at h
  · rw [e] at h; simp [acquire, release] at h

/-! ## The claims, continued -/

/-- C11: in a tick whose trace holds a `check_status` call, the trace is
`pre ++ [clk_ctrl(POWER_ON), check_status, panel_dead := v, clk_ctrl(POWER_OFF)]
++ post`; the call, the enable and the disable each occur exactly once in the
whole trace; and before each of these four events, and right after the disable,
the controller mutex is held and `ov_lock` is held exactly in command mode. -/
theorem probe_under_locks_and_clock (is_power_off : Int → Bool) (work : Work)
    (interval : Nat) (s : PanelDead)
    (hcall : Event.check_status
      ∈ (mdss_check_dsi_ctrl_status is_power_off work interval s).2) :
    ∃ pre post v,
      (mdss_check_dsi_ctrl_status is_power_off work interval s).2
        = pre ++ [Event.mdss_mdp_clk_ctrl MdpBlockPower.MDP_BLOCK_POWER_ON,
                  Event.check_status, Event.set_panel_dead v,
                  Event.mdss_mdp_clk_ctrl MdpBlockPower.MDP_BLOCK_POWER_OFF] ++ post
      ∧ (mdss_check_dsi_ctrl_status is_power_off work interval s).2.count
          Event.check_status = 1
      ∧ (mdss_check_dsi_ctrl_status is_power_off work interval s).2.count
          (Event.mdss_mdp_clk_ctrl MdpBlockPower.MDP_BLOCK_POWER_ON) = 1
      ∧ (mdss_check_dsi_ctrl_status is_power_off work interval s).2.count
          (Event.mdss_mdp_clk_ctrl MdpBlockPower.MDP_BLOCK_POWER_OFF) = 1
      ∧ ∀ k, k ≤ 4 →
          held_after Held.none
            (pre ++ List.take k
              [Event.mdss_mdp_clk_ctrl MdpBlockPower.MDP_BLOCK_POWER_ON,
               Event.check_status, Event.set_panel_dead v,
               Event.mdss_mdp_clk_ctrl MdpBlockPower.MDP_BLOCK_POWER_OFF])
            = held_probing work.mode := by
  rcases tick_shape is_power_off work interval s with e | e | e | ⟨r, ctl, _, _, _, _, e⟩
  · rw [e] at hcall; simp at hcall
  · rw [e] at hcall; simp at hcall
  · rw [e] at hcall; simp [acquire, release] at hcall
  · rw [e]
    refine ⟨acquire work.mode ++ [Event.wake_lock] ++ drain ctl s,
      [Event.wake_unlock] ++ release work.mode
        ++ outcome work.panel_power_state_reread r interval,
      probe_verdict r, ?_, ?_, ?_, ?_, ?_⟩
    · simp [probe_trace]
    · by_cases hm : work.mode = DSI_CMD_MODE <;>
      by_cases hd : (ctl.wait_pingpong = true ∧ s ≠ PanelDead.PANEL_DEAD_CHECK) <;>
      by_cases hp : work.panel_power_state_reread = MDSS_PANEL_POWER_OFF <;>
      by_cases hr : r > 0 <;>
      simp [probe_trace, acquire, release, drain, outcome, hm, hd, hp, hr,
        List.count_cons]
    · by_cases hm : work.mode = DSI_CMD_MODE <;>
      by_cases hd : (ctl.wait_pingpong = true ∧ s ≠ PanelDead.PANEL_DEAD_CHECK) <;>
      by_cases hp : work.panel_power_state_reread = MDSS_PANEL_POWER_OFF <;>
      by_cases hr : r > 0 <;>
      simp [probe_trace, acquire, release, drain, outcome, hm, hd, hp, hr,
        List.count_cons]
    · by_cases hm : work.mode = DSI_CMD_MODE <;>
      by_cases hd : (ctl.wait_pingpong = true ∧ s ≠ PanelDead.PANEL_DEAD_CHECK) <;>
      by_cases hp : work.panel_power_state_reread = MDSS_PANEL_POWER_OFF <;>
      by_cases hr : r > 0 <;>
      simp [probe_trace, acquire, release, drain, outcome, hm, hd, hp, hr,
        List.count_cons]
    · intro k hk
      have hpre : held_after Held.none
          (acquire work.mode ++ [Event.wake_lock] ++ drain ctl s)
          = held_probing work.mode := by
        rw [held_after_append, held_after_append, held_after_acquire]
        by_cases hd : (ctl.wait_pingpong = true ∧ s ≠ PanelDead.PANEL_DEAD_CHECK) <;>
          simp [drain, hd, held_after, Held.step]
      rw [held_after_append, hpre]
      interval_cases k <;> simp [held_after, Held.step]

/-- C11, witness: a failed probe in command mode. -/
theorem probe_under_locks_and_clock_witness :
    ∃ pre post v,
      (mdss_check_dsi_ctrl_status is_off work_cmd_dead 2000
          PanelDead.PANEL_DEAD_NONE).2
        = pre ++ [Event.mdss_mdp_clk_ctrl MdpBlockPower.MDP_BLOCK_POWER_ON,
                  Event.check_status, Event.set_panel_dead v,
                  Event.mdss_mdp_clk_ctrl MdpBlockPower.MDP_BLOCK_POWER_OFF] ++ post
      ∧ (mdss_check_dsi_ctrl_status is_off work_cmd_dead 2000
          PanelDead.PANEL_DEAD_NONE).2.count Event.check_status = 1
      ∧ (mdss_check_dsi_ctrl_status is_off work_cmd_dead 2000
          PanelDead.PANEL_DEAD_NONE).2.count
          (Event.mdss_mdp_clk_ctrl MdpBlockPower.MDP_BLOCK_POWER_ON) = 1
      ∧ (mdss_check_dsi_ctrl_status is_off work_cmd_dead 2000
          PanelDead.PANEL_DEAD_NONE).2.count
          (Event.mdss_mdp_clk_ctrl MdpBlockPower.MDP_BLOCK_POWER_OFF) = 1
      ∧ ∀ k, k ≤ 4 →
          held_after Held.none
            (pre ++ List.take k
              [Event.mdss_mdp_clk_ctrl MdpBlockPower.MDP_BLOCK_POWER_ON,
               Event.check_status, Event.set_panel_dead v,
               Event.mdss_mdp_clk_ctrl MdpBlockPower.MDP_BLOCK_POWER_OFF])
            = held_probing work_cmd_dead.mode :=
  probe_under_locks_and_clock is_off work_cmd_dead 2000 PanelDead.PANEL_DEAD_NONE
    (by decide)

/-- C12: one tick calls `schedule_delayed_work` at most once, every such call
carries the tick's `interval` as its delay, and no tick both reschedules and
calls the failure reporter.  So a tick adds at most one pending invocation. -/
theorem no_duplicate_timers (is_power_off : Int → Bool) (work : Work)
    (interval : Nat) (s : PanelDead) :
    ((mdss_check_dsi_ctrl_status is_power_off work interval s).2.filter
        is_schedule).length ≤ 1
    ∧ (∀ ms, Event.schedule_delayed_work ms
          ∈ (mdss_check_dsi_ctrl_status is_power_off work interval s).2 →
        ms = interval)
    ∧ ¬ ((∃ ms, Event.schedule_delayed_work ms
            ∈ (mdss_check_dsi_ctrl_status is_power_off work interval s).2)
          ∧ Event.mdss_fb_report_panel_dead
            ∈ (mdss_check_dsi_ctrl_status is_power_off work interval s).2) := by
  have hmem : ∀ e, is_outcome e = true →
      e ∈ (mdss_check_dsi_ctrl_status is_power_off work interval s).2 →
      e ∈ (mdss_check_dsi_ctrl_status is_power_off work interval s).2.filter
        is_outcome :=
    fun e he hin => List.mem_filter.mpr ⟨hin, he⟩
  refine ⟨?_, ?_, ?_⟩
  · rw [filter_schedule_eq]
    rcases tick_outcome_events is_power_off work interval s with h | h | h <;>
      rw [h] <;> simp [is_schedule, List.filter_cons]
  · intro ms hms
    have := hmem _ (by simp [is_outcome]) hms
    rcases tick_outcome_events is_power_off work interval s with h | h | h <;>
      rw [h] at this <;> simp at this
    exact this
  · rintro ⟨⟨ms, hms⟩, hrep⟩
    have h1 := hmem _ (by simp [is_outcome]) hms
    have h2 := hmem _ (by simp [is_outcome]) hrep
    rcases tick_outcome_events is_power_off work interval s with h | h | h <;>
      rw [h] at h1 h2 <;> simp at h1 h2

/-- C13: from `PANEL_DEAD_NONE`, with every tick on a powered panel at the same
`interval`: after `good.length` ticks whose probes are positive, a tick whose
probe is non-positive, and one more tick with arbitrary inputs, the records
are: for each of the first ticks `PANEL_DEAD_NONE` and exactly one reschedule at
`interval`; for the failing tick `PANEL_DEAD_REPORT`, written by that tick,
with exactly one failure report and no reschedule; for the last tick an empty
trace and `PANEL_DEAD_REPORT` still. -/
theorem first_failure_scenario (is_power_off : Int → Bool) (interval : Nat)
    (good : List Work) (bad extra : Work)
    (hgood : ∀ w ∈ good, powered_on is_power_off w
      ∧ ∃ r, w.check_status = some r ∧ r > 0)
    (hbad : powered_on is_power_off bad
      ∧ ∃ r, bad.check_status = some r ∧ r ≤ 0) :
    ∃ rs rk,
      run is_power_off PanelDead.PANEL_DEAD_NONE
          (good.map (fun w => (w, interval))
            ++ [(bad, interval), (extra, interval)])
        = rs ++ [rk, (PanelDead.PANEL_DEAD_REPORT, [])]
      ∧ rs.length = good.length
      ∧ (∀ r ∈ rs, r.1 = PanelDead.PANEL_DEAD_NONE
          ∧ r.2.filter is_outcome = [Event.schedule_delayed_work interval])
      ∧ rk.1 = PanelDead.PANEL_DEAD_REPORT
      ∧ Event.set_panel_dead PanelDead.PANEL_DEAD_REPORT ∈ rk.2
      ∧ rk.2.filter is_outcome = [Event.mdss_fb_report_panel_dead] := by
  obtain ⟨hp, r, hr, hneg⟩ := hbad
  obtain ⟨hall, hst⟩ := run_healthy is_power_off interval good hgood
  obtain ⟨ctl, _, e⟩ :=
    tick_powered is_power_off bad interval PanelDead.PANEL_DEAD_NONE r hp hr
      (Or.inl rfl)
  have hv : probe_verdict r = PanelDead.PANEL_DEAD_REPORT := by
    simp [probe_verdict, not_lt.mpr hneg]
  refine ⟨run is_power_off PanelDead.PANEL_DEAD_NONE
      (good.map (fun w => (w, interval))),
    (PanelDead.PANEL_DEAD_REPORT,
      probe_trace bad ctl PanelDead.PANEL_DEAD_NONE r interval), ?_, ?_, ?_, rfl, ?_, ?_⟩
  · rw [run_append, hst]
    simp [run, e, hv, tick_report]
  · simp [run_length]
  · intro x hx
    exact ⟨(hall x hx).1, (hall x hx).2.2⟩
  · simp [probe_trace, hv]
  · simp [filter_outcome_probe_trace, outcome, hp.2.2.2.2, not_lt.mpr hneg]

/-- C13, witness: the scenario of the specification, `k = 3` and
`interval = 2000`; the fourth tick is forced on a healthy panel. -/
theorem first_failure_scenario_witness :
    ∃ rs rk,
      run is_off PanelDead.PANEL_DEAD_NONE
          ([work_ok, work_cmd].map (fun w => (w, 2000))
            ++ [(work_dead, 2000), (work_ok, 2000)])
        = rs ++ [rk, (PanelDead.PANEL_DEAD_REPORT, [])]
      ∧ rs.length = [work_ok, work_cmd].length
      ∧ (∀ r ∈ rs, r.1 = PanelDead.PANEL_DEAD_NONE
          ∧ r.2.filter is_outcome = [Event.schedule_delayed_work 2000])
      ∧ rk.1 = PanelDead.PANEL_DEAD_REPORT
      ∧ Event.set_panel_dead PanelDead.PANEL_DEAD_REPORT ∈ rk.2
      ∧ rk.2.filter is_outcome = [Event.mdss_fb_report_panel_dead] :=
  first_failure_scenario is_off 2000 [work_ok, work_cmd] work_dead work_ok
    (by
      intro w hw
      simp only [List.mem_cons, List.mem_singleton, List.not_mem_nil, or_false] at hw
      rcases hw with rfl | rfl
      · exact ⟨⟨by decide, ⟨_, rfl, by decide⟩, rfl, rfl, by decide⟩, 1, rfl, by decide⟩
      · exact ⟨⟨by decide, ⟨_, rfl, by decide⟩, rfl, rfl, by decide⟩, 1, rfl, by decide⟩)
    ⟨⟨by decide, ⟨_, rfl, by decide⟩, rfl, rfl, by decide⟩, 0, rfl, by decide⟩

/-- C14: from `PANEL_DEAD_NONE`, in a sequence of ticks at `interval` on a
powered panel whose probe is positive every time, there is one record per tick,
every tick calls `check_status` once, emits exactly one reschedule at `interval`
and no report, and leaves `PANEL_DEAD_NONE`; the failure reporter is not called
anywhere in the sequence. -/
theorem healthy_scenario (is_power_off : Int → Bool) (interval : Nat)
    (ws : List Work)
    (h : ∀ w ∈ ws, powered_on is_power_off w
      ∧ ∃ r, w.check_status = some r ∧ r > 0) :
    (run is_power_off PanelDead.PANEL_DEAD_NONE
        (ws.map (fun w => (w, interval)))).length = ws.length
    ∧ (∀ r ∈ run is_power_off PanelDead.PANEL_DEAD_NONE
          (ws.map (fun w => (w, interval))),
        r.1 = PanelDead.PANEL_DEAD_NONE
        ∧ r.2.count Event.check_status = 1
        ∧ r.2.filter is_outcome = [Event.schedule_delayed_work interval])
    ∧ Event.mdss_fb_report_panel_dead
        ∉ run_trace is_power_off PanelDead.PANEL_DEAD_NONE
            (ws.map (fun w => (w, interval))) := by
  obtain ⟨hall, _⟩ := run_healthy is_power_off interval ws h
  refine ⟨by simp [run_length], hall, ?_⟩
  intro hmem
  simp only [run_trace, List.mem_flatten, List.mem_map] at hmem
  obtain ⟨l, ⟨x, hx, rfl⟩, hl⟩ := hmem
  have : Event.mdss_fb_report_panel_dead ∈ x.2.filter is_outcome :=
    List.mem_filter.mpr ⟨hl, by simp [is_outcome]⟩
  rw [(hall x hx).2.2] at this
  simp at this

/-- C14, witness: three healthy ticks at `interval = 2000`. -/
theorem healthy_scenario_witness :
    (run is_off PanelDead.PANEL_DEAD_NONE
        ([work_ok, work_cmd, work_no_hook].map (fun w => (w, 2000)))).length
      = [work_ok, work_cmd, work_no_hook].length
    ∧ (∀ r ∈ run is_off PanelDead.PANEL_DEAD_NONE
          ([work_ok, work_cmd, work_no_hook].map (fun w => (w, 2000))),
        r.1 = PanelDead.PANEL_DEAD_NONE
        ∧ r.2.count Event.check_status = 1
        ∧ r.2.filter is_outcome = [Event.schedule_delayed_work 2000])
    ∧ Event.mdss_fb_report_panel_dead
        ∉ run_trace is_off PanelDead.PANEL_DEAD_NONE
            ([work_ok, work_cmd, work_no_hook].map (fun w => (w, 2000))) :=
  healthy_scenario is_off 2000 [work_ok, work_cmd, work_no_hook]
    (by
      intro w hw
      simp only [List.mem_cons, List.mem_singleton, List.not_mem_nil, or_false] at hw
      rcases hw with rfl | rfl | rfl
      · exact ⟨⟨by decide, ⟨_, rfl, by decide⟩, rfl, rfl, by decide⟩, 1, rfl, by decide⟩
      · exact ⟨⟨by decide, ⟨_, rfl, by decide⟩, rfl, rfl, by decide⟩, 1, rfl, by decide⟩
      · exact ⟨⟨by decide, ⟨_, rfl, by decide⟩, rfl, rfl, by decide⟩, 1, rfl, by decide⟩)

/-- C15: when `pstatus_data`, `mfd`, `pdata`, `ctrl_pdata` or the
`check_status` callback is missing, the tick emits no event and leaves
`panel_dead` as it is, whatever `panel_dead` and the other inputs are. -/
theorem binding_check (is_power_off : Int → Bool) (work : Work) (interval : Nat)
    (s : PanelDead)
    (h : work.pstatus_data = false ∨ work.mfd = false ∨ work.pdata = false
      ∨ work.ctrl_pdata = false ∨ work.check_status = none) :
    mdss_check_dsi_ctrl_status is_power_off work interval s = (s, []) := by
  unfold mdss_check_dsi_ctrl_status
  by_cases h1 : work.pstatus_data = false ∨ work.mfd = false
  · simp [h1]
  by_cases h2 : work.pdata = false
  · simp [h2]
  have h3 : work.ctrl_pdata = false ∨ work.check_status = none := by
    rcases h with h | h | h | h | h
    · exact absurd (Or.inl h) h1
    · exact absurd (Or.inr h) h1
    · exact absurd h h2
    · exact Or.inl h
    · exact Or.inr h
  rcases h3 with h3 | h3 <;> simp [h1, h2, h3]

/-- C15, witness: no callback registered, in `PANEL_DEAD_BLANK`. -/
theorem binding_check_witness :
    mdss_check_dsi_ctrl_status is_off work_unbound 2000 PanelDead.PANEL_DEAD_BLANK
      = (PanelDead.PANEL_DEAD_BLANK, []) :=
  binding_check is_off work_unbound 2000 PanelDead.PANEL_DEAD_BLANK
    (Or.inr (Or.inr (Or.inr (Or.inr rfl))))

/-- C16: in a tick that gets past the teardown race check, with `ctl` the
resolved pipeline: `wait_pingpong` is called once when the hook is present and
`panel_dead` is not `PANEL_DEAD_CHECK`, and not at all otherwise; `check_status`
is called in both cases; and when `wait_pingpong` is called, it comes right
before the clock enable and the `check_status` call, with the controller mutex
held and `ov_lock` held exactly in command mode. -/
theorem pre_probe_drain (is_power_off : Int → Bool) (work : Work)
    (interval : Nat) (s : PanelDead) (ctl : mdss_mdp_ctl)
    (hpass : passes_teardown_check is_power_off work s)
    (hctl : work.ctl = some ctl) :
    (mdss_check_dsi_ctrl_status is_power_off work interval s).2.count
        Event.wait_pingpong
      = (if ctl.wait_pingpong = true ∧ s ≠ PanelDead.PANEL_DEAD_CHECK then 1 else 0)
    ∧ Event.check_status
        ∈ (mdss_check_dsi_ctrl_status is_power_off work interval s).2
    ∧ (ctl.wait_pingpong = true ∧ s ≠ PanelDead.PANEL_DEAD_CHECK →
        ∃ pre post,
          (mdss_check_dsi_ctrl_status is_power_off work interval s).2
            = pre ++ [Event.wait_pingpong,
                      Event.mdss_mdp_clk_ctrl MdpBlockPower.MDP_BLOCK_POWER_ON,
                      Event.check_status] ++ post
          ∧ held_after Held.none pre = held_probing work.mode) := by
  obtain ⟨r, c, _, hc, e⟩ := tick_of_passes is_power_off work interval s hpass
  rw [hctl] at hc
  cases hc
  rw [e]
  refine ⟨?_, ?_, ?_⟩
  · by_cases hm : work.mode = DSI_CMD_MODE <;>
    by_cases hd : (ctl.wait_pingpong = true ∧ s ≠ PanelDead.PANEL_DEAD_CHECK) <;>
    by_cases hp : work.panel_power_state_reread = MDSS_PANEL_POWER_OFF <;>
    by_cases hr : r > 0 <;>
    simp [probe_trace, acquire, release, drain, outcome, hm, hd, hp, hr,
      List.count_cons]
  · simp [probe_trace]
  · intro hd
    refine ⟨acquire work.mode ++ [Event.wake_lock],
      [Event.set_panel_dead (probe_verdict r),
        Event.mdss_mdp_clk_ctrl MdpBlockPower.MDP_BLOCK_POWER_OFF,
        Event.wake_unlock] ++ release work.mode
        ++ outcome work.panel_power_state_reread r interval, ?_, ?_⟩
    · simp [probe_trace, drain, hd]
    · rw [held_after_append, held_after_acquire]
      simp [held_after, Held.step]

/-- C16, witness: a healthy command-mode panel with the hook, from
`PANEL_DEAD_NONE`: one drain. -/
theorem pre_probe_drain_witness :
    (mdss_check_dsi_ctrl_status is_off work_cmd 2000
        PanelDead.PANEL_DEAD_NONE).2.count Event.wait_pingpong = 1 :=
  (pre_probe_drain is_off work_cmd 2000 PanelDead.PANEL_DEAD_NONE
    { power_state := 1, wait_pingpong := true }
    ⟨by decide, Or.inl rfl, _, rfl, by decide, rfl, rfl⟩ rfl).1

/-- C17, counterexample to the claim as stated: with the pipeline unresolved
and `panel_dead` at `PANEL_DEAD_BLANK`, the tick reschedules. -/
theorem unavailable_pipeline_counterexample :
    work_no_ctl.ctl = none
    ∧ mdss_check_dsi_ctrl_status is_off work_no_ctl 2000 PanelDead.PANEL_DEAD_BLANK
      = (PanelDead.PANEL_DEAD_BLANK, [Event.schedule_delayed_work 2000]) := by
  decide

/-- C17, as amended: when the pipeline cannot be resolved and `panel_dead` is
not `PANEL_DEAD_BLANK`, the tick emits no event (no reschedule, no lock, no
probe, no report) and leaves `panel_dead` as it is. -/
theorem unavailable_pipeline (is_power_off : Int → Bool) (work : Work)
    (interval : Nat) (s : PanelDead) (hctl : work.ctl = none)
    (hs : s ≠ PanelDead.PANEL_DEAD_BLANK) :
    mdss_check_dsi_ctrl_status is_power_off work interval s = (s, []) := by
  unfold mdss_check_dsi_ctrl_status
  by_cases h1 : work.pstatus_data = false ∨ work.mfd = false
  · simp [h1]
  by_cases h2 : work.pdata = false
  · simp [h2]
  cases h3 : (if work.ctrl_pdata = true then work.check_status else none) with
  | none => simp [h1, h2]
  | some ret => cases s <;> simp_all

/-- C17, witness: pipeline torn down, `PANEL_DEAD_NONE`. -/
theorem unavailable_pipeline_witness :
    mdss_check_dsi_ctrl_status is_off work_no_ctl 2000 PanelDead.PANEL_DEAD_NONE
      = (PanelDead.PANEL_DEAD_NONE, []) :=
  unavailable_pipeline is_off work_no_ctl 2000 PanelDead.PANEL_DEAD_NONE rfl
    (by decide)

/-- C18: when `mdss_panel_is_power_off` holds exactly of `MDSS_PANEL_POWER_OFF`
and the panel power state re-read after unlocking equals the one read under the
locks, a tick that calls `check_status` and gets `ret` re-reads a power state
that is not off, and its reschedule and report events are exactly one
reschedule at `interval` when `ret > 0` and exactly one failure report when
`ret ≤ 0`. -/
theorem outcome_never_dropped (is_power_off : Int → Bool) (work : Work)
    (interval : Nat) (s : PanelDead) (ret : Int)
    (hpw : ∀ x, is_power_off x = true ↔ x = MDSS_PANEL_POWER_OFF)
    (hsame : work.panel_power_state_reread = work.panel_power_state)
    (hcall : Event.check_status
      ∈ (mdss_check_dsi_ctrl_status is_power_off work interval s).2)
    (hret : work.check_status = some ret) :
    work.panel_power_state_reread ≠ MDSS_PANEL_POWER_OFF
    ∧ (ret > 0 →
      (mdss_check_dsi_ctrl_status is_power_off work interval s).2.filter is_outcome
        = [Event.schedule_delayed_work interval])
    ∧ (ret ≤ 0 →
      (mdss_check_dsi_ctrl_status is_power_off work interval s).2.filter is_outcome
        = [Event.mdss_fb_report_panel_dead]) := by
  have hpass := passes_of_check_status is_power_off work interval s hcall
  have hon : work.panel_power_state_reread ≠ MDSS_PANEL_POWER_OFF := by
    obtain ⟨_, _, _, _, _, hoff, _⟩ := hpass
    intro h
    rw [hsame] at h
    rw [(hpw _).mpr h] at hoff
    cases hoff
  obtain ⟨r, ctl, hr, _, e⟩ := tick_of_passes is_power_off work interval s hpass
  rw [hret] at hr
  cases hr
  rw [e, filter_outcome_probe_trace]
  refine ⟨hon, ?_, ?_⟩
  · intro h; simp [outcome, hon, h]
  · intro h; simp [outcome, hon, not_lt.mpr h]

/-- C18, witness: a failed probe on a panel whose power state does not change
during the tick ends in a report. -/
theorem outcome_never_dropped_witness :
    (mdss_check_dsi_ctrl_status is_off work_cmd_dead 2000
        PanelDead.PANEL_DEAD_CHECK).2.filter is_outcome
      = [Event.mdss_fb_report_panel_dead] :=
  (outcome_never_dropped is_off work_cmd_dead 2000 PanelDead.PANEL_DEAD_CHECK (-5)
    (by intro x; simp [is_off]) rfl (by decide) rfl).2.2 (by decide)

/-- C19: a tick that does not call `check_status` writes nothing to `panel_dead`
and leaves it as it was; no tick writes `PANEL_DEAD_CHECK` or
`PANEL_DEAD_BLANK`; `panel_dead` after a tick is its value before, or
`PANEL_DEAD_NONE`, or `PANEL_DEAD_REPORT`; and it differs from the value before
only in a tick that called `check_status`. -/
theorem dead_state_frame (is_power_off : Int → Bool) (work : Work)
    (interval : Nat) (s : PanelDead) :
    (Event.check_status
        ∉ (mdss_check_dsi_ctrl_status is_power_off work interval s).2 →
      (mdss_check_dsi_ctrl_status is_power_off work interval s).1 = s
      ∧ ∀ v, Event.set_panel_dead v
          ∉ (mdss_check_dsi_ctrl_status is_power_off work interval s).2)
    ∧ Event.set_panel_dead PanelDead.PANEL_DEAD_CHECK
        ∉ (mdss_check_dsi_ctrl_status is_power_off work interval s).2
    ∧ Event.set_panel_dead PanelDead.PANEL_DEAD_BLANK
        ∉ (mdss_check_dsi_ctrl_status is_power_off work interval s).2
    ∧ ((mdss_check_dsi_ctrl_status is_power_off work interval s).1 = s
        ∨ (mdss_check_dsi_ctrl_status is_power_off work interval s).1
            = PanelDead.PANEL_DEAD_NONE
        ∨ (mdss_check_dsi_ctrl_status is_power_off work interval s).1
            = PanelDead.PANEL_DEAD_REPORT)
    ∧ ((mdss_check_dsi_ctrl_status is_power_off work interval s).1 ≠ s →
        Event.check_status
          ∈ (mdss_check_dsi_ctrl_status is_power_off work interval s).2) := by
  rcases tick_shape is_power_off work interval s with e | e | e | ⟨r, ctl, _, _, _, _, e⟩
  · rw [e]; simp
  · rw [e]; simp
  · rw [e]
    by_cases hm : work.mode = DSI_CMD_MODE <;> simp [acquire, release, hm]
  · rw [e]
    have hcs : Event.check_status ∈ probe_trace work ctl s r interval := by
      simp [probe_trace]
    by_cases hm : work.mode = DSI_CMD_MODE <;>
    by_cases hd : (ctl.wait_pingpong = true ∧ s ≠ PanelDead.PANEL_DEAD_CHECK) <;>
    by_cases hp : work.panel_power_state_reread = MDSS_PANEL_POWER_OFF <;>
    by_cases hr : r > 0 <;>
    simp [hcs, probe_trace, acquire, release, drain, outcome, probe_verdict,
      hm, hd, hp, hr]

/-- C19, witness: a teardown race from `PANEL_DEAD_CHECK` and a failed probe
from `PANEL_DEAD_NONE`. -/
theorem dead_state_frame_witness :
    (mdss_check_dsi_ctrl_status is_off work_race 2000
        PanelDead.PANEL_DEAD_CHECK).1 = PanelDead.PANEL_DEAD_CHECK
    ∧ Event.check_status
        ∈ (mdss_check_dsi_ctrl_status is_off work_dead 2000
            PanelDead.PANEL_DEAD_NONE).2 :=
  ⟨((dead_state_frame is_off work_race 2000 PanelDead.PANEL_DEAD_CHECK).1
      (by decide)).1,
   (dead_state_frame is_off work_dead 2000 PanelDead.PANEL_DEAD_NONE).2.2.2.2
      (by decide)⟩

/-- C20: in every tick the trace holds as many `wake_lock` as `wake_unlock`
calls, at most one of each; `wake_lock` is called exactly in the ticks that get
past the teardown race check; the wake lock is not held when the tick returns;
and when it is taken the trace is
`pre ++ [wake_lock] ++ mid ++ [clk_ctrl(POWER_OFF), wake_unlock] ++ post` with
no mutex acquisition in `mid` or `post`, no mutex release in `pre` or `mid`, and
no clock-gate call in `post`. -/
theorem wake_lock_balance (is_power_off : Int → Bool) (work : Work)
    (interval : Nat) (s : PanelDead) :
    (mdss_check_dsi_ctrl_status is_power_off work interval s).2.count
        Event.wake_lock
      = (mdss_check_dsi_ctrl_status is_power_off work interval s).2.count
        Event.wake_unlock
    ∧ (mdss_check_dsi_ctrl_status is_power_off work interval s).2.count
        Event.wake_lock ≤ 1
    ∧ (Event.wake_lock
          ∈ (mdss_check_dsi_ctrl_status is_power_off work interval s).2
        ↔ passes_teardown_check is_power_off work s)
    ∧ wake_held_after false
        (mdss_check_dsi_ctrl_status is_power_off work interval s).2 = false
    ∧ (Event.wake_lock
          ∈ (mdss_check_dsi_ctrl_status is_power_off work interval s).2 →
        ∃ pre mid post,
          (mdss_check_dsi_ctrl_status is_power_off work interval s).2
            = pre ++ [Event.wake_lock] ++ mid
              ++ [Event.mdss_mdp_clk_ctrl MdpBlockPower.MDP_BLOCK_POWER_OFF,
                  Event.wake_unlock] ++ post
          ∧ (∀ m, Event.mutex_lock m ∉ mid ∧ Event.mutex_lock m ∉ post)
          ∧ (∀ m, Event.mutex_unlock m ∉ pre ∧ Event.mutex_unlock m ∉ mid)
          ∧ (∀ b, Event.mdss_mdp_clk_ctrl b ∉ post)) := by
  by_cases hpass : passes_teardown_check is_power_off work s
  · obtain ⟨r, ctl, _, _, e⟩ := tick_of_passes is_power_off work interval s hpass
    rw [e]
    have hwl : Event.wake_lock ∈ probe_trace work ctl s r interval := by
      simp [probe_trace]
    refine ⟨?_, ?_, ?_, ?_, ?_⟩
    · by_cases hm : work.mode = DSI_CMD_MODE <;>
      by_cases hd : (ctl.wait_pingpong = true ∧ s ≠ PanelDead.PANEL_DEAD_CHECK) <;>
      by_cases hp : work.panel_power_state_reread = MDSS_PANEL_POWER_OFF <;>
      by_cases hr : r > 0 <;>
      simp [probe_trace, acquire, release, drain, outcome, hm, hd, hp, hr,
        List.count_cons]
    · by_cases hm : work.mode = DSI_CMD_MODE <;>
      by_cases hd : (ctl.wait_pingpong = true ∧ s ≠ PanelDead.PANEL_DEAD_CHECK) <;>
      by_cases hp : work.panel_power_state_reread = MDSS_PANEL_POWER_OFF <;>
      by_cases hr : r > 0 <;>
      simp [probe_trace, acquire, release, drain, outcome, hm, hd, hp, hr,
        List.count_cons]
    · exact ⟨fun _ => hpass, fun _ => hwl⟩
    · by_cases hm : work.mode = DSI_CMD_MODE <;>
      by_cases hd : (ctl.wait_pingpong = true ∧ s ≠ PanelDead.PANEL_DEAD_CHECK) <;>
      by_cases hp : work.panel_power_state_reread = MDSS_PANEL_POWER_OFF <;>
      by_cases hr : r > 0 <;>
      simp [probe_trace, acquire, release, drain, outcome, hm, hd, hp, hr,
        wake_held_after]
    · intro _
      refine ⟨acquire work.mode,
        drain ctl s ++ [Event.mdss_mdp_clk_ctrl MdpBlockPower.MDP_BLOCK_POWER_ON,
          Event.check_status, Event.set_panel_dead (probe_verdict r)],
        release work.mode ++ outcome work.panel_power_state_reread r interval,
        ?_, ?_, ?_, ?_⟩
      · simp [probe_trace]
      · intro m
        by_cases hm : work.mode = DSI_CMD_MODE <;>
        by_cases hd : (ctl.wait_pingpong = true ∧ s ≠ PanelDead.PANEL_DEAD_CHECK) <;>
        by_cases hp : work.panel_power_state_reread = MDSS_PANEL_POWER_OFF <;>
        by_cases hr : r > 0 <;>
        simp [release, drain, outcome, hm, hd, hp, hr]
      · intro m
        by_cases hm : work.mode = DSI_CMD_MODE <;>
        by_cases hd : (ctl.wait_pingpong = true ∧ s ≠ PanelDead.PANEL_DEAD_CHECK) <;>
        simp [acquire, drain, hm, hd]
      · intro b
        by_cases hm : work.mode = DSI_CMD_MODE <;>
        by_cases hp : work.panel_power_state_reread = MDSS_PANEL_POWER_OFF <;>
        by_cases hr : r > 0 <;>
        simp [release, outcome, hm, hp, hr]
  · have hno : Event.wake_lock
        ∉ (mdss_check_dsi_ctrl_status is_power_off work interval s).2 :=
      fun h => hpass (passes_of_wake_lock is_power_off work interval s h)
    refine ⟨?_, ?_, ⟨fun h => absurd h hno, fun h => absurd h hpass⟩, ?_,
      fun h => absurd h hno⟩
    · rcases tick_of_not_passes is_power_off work interval s hpass with e | e | e <;>
        rw [e]
      · simp
      · simp [List.count_cons]
      · by_cases hm : work.mode = DSI_CMD_MODE <;>
          simp [acquire, release, hm, List.count_cons]
    · rw [List.count_eq_zero_of_not_mem hno]
      exact Nat.zero_le 1
    · rcases tick_of_not_passes is_power_off work interval s hpass with e | e | e <;>
        rw [e]
      · simp [wake_held_after]
      · simp [wake_held_after]
      · by_cases hm : work.mode = DSI_CMD_MODE <;>
          simp [acquire, release, hm, wake_held_after]

/-- C20, witness: a healthy command-mode tick takes the wake lock and does not
hold it at return. -/
theorem wake_lock_balance_witness :
    Event.wake_lock
      ∈ (mdss_check_dsi_ctrl_status is_off work_cmd 2000 PanelDead.PANEL_DEAD_NONE).2
    ∧ wake_held_after false
        (mdss_check_dsi_ctrl_status is_off work_cmd 2000
          PanelDead.PANEL_DEAD_NONE).2 = false :=
  ⟨(wake_lock_balance is_off work_cmd 2000 PanelDead.PANEL_DEAD_NONE).2.2.1.mpr
      ⟨by decide, Or.inl rfl, _, rfl, by decide, rfl, rfl⟩,
   (wake_lock_balance is_off work_cmd 2000 PanelDead.PANEL_DEAD_NONE).2.2.2.1⟩

end DsiStatus6g
